/-
Verification of the specification-to-artifact pipeline of the
cloud-function-saas repository.

The development shallowly embeds the Python sources:
  * `src/spec_parser.py`        — the markdown specification parser,
  * `src/prototype.py`          — the historical parser variant (models as a
                                  list of records rather than a mapping),
  * `src/terraform_validator.py`— the validator / auto-fix repair loop and its
                                  deterministic synthesis generators,
  * `src/terraform_code_generator.py` — the provider tfvars generator used by
                                  the repair loop,
  * `src/multi_agent_generator.py` — multi-candidate orchestration: scoring
                                  result parsing, best-attempt selection,
                                  refinement loop and total-failure fallback.

Python strings are modelled as Lean `String` (a packed `List Char`), with the
string primitives the sources use (strip / startswith / replace / split /
substring membership / lower) re-implemented by structural recursion on the
character list so that every definition evaluates inside the kernel.
Python floats (validation scores) are modelled as `Rat`; no score arithmetic
other than order comparison occurs in the embedded code, so this is faithful
for every non-NaN input.  Python dicts are modelled as association lists with
insert-or-overwrite-in-place semantics, matching insertion-ordered dicts.
`os.getenv` reads are passed in explicitly as an environment record.
-/
import Mathlib

set_option maxRecDepth 200000

/-! # String primitives

Structural-recursion implementations of the Python `str` operations used by
the embedded sources.  All operate on `String.data` so that proofs can
evaluate them by `decide` / `rfl`. -/

/-- Whitespace characters stripped by Python's `str.strip()`. -/
def wsChar (c : Char) : Bool :=
  c == ' ' || c == '\t' || c == '\n' || c == '\r' || c == '\x0b' || c == '\x0c'

/-- Python `s.strip()`. -/
def strTrim (s : String) : String :=
  ⟨((s.data.dropWhile wsChar).reverse.dropWhile wsChar).reverse⟩

/-- `pat` is a prefix of the character list. -/
def listStartsWith : List Char → List Char → Bool
  | [], _ => true
  | _ :: _, [] => false
  | p :: ps, c :: cs => p == c && listStartsWith ps cs

/-- Python `s.startswith(pat)`. -/
def strStartsWith (s pat : String) : Bool :=
  listStartsWith pat.data s.data

/-- One fuel-indexed step list of Python `s.replace(old, new)` (all
occurrences, left to right, non-overlapping).  The fuel starts at the length
of the scanned list and never runs out because each step consumes at least one
character. -/
def listReplaceF (old new : List Char) : Nat → List Char → List Char
  | 0, s => s
  | _ + 1, [] => []
  | fuel + 1, c :: cs =>
    if !old.isEmpty && listStartsWith old (c :: cs) then
      new ++ listReplaceF old new fuel ((c :: cs).drop old.length)
    else
      c :: listReplaceF old new fuel cs

/-- Python `s.replace(old, new)` (the sources only call it with non-empty
`old`). -/
def strReplace (s old new : String) : String :=
  ⟨listReplaceF old.data new.data s.data.length s.data⟩

/-- Split a character list on a separator, keeping empty pieces. -/
def listSplitChar (sep : Char) : List Char → List (List Char)
  | [] => [[]]
  | c :: cs =>
    match listSplitChar sep cs with
    | [] => [[c]]
    | p :: ps => if c == sep then [] :: p :: ps else (c :: p) :: ps

/-- Python `s.split('\n')`. -/
def strLines (s : String) : List String :=
  (listSplitChar '\n' s.data).map fun l => ⟨l⟩

/-- Python `s.lower()` (ASCII, which is all the sources compare). -/
def strLower (s : String) : String :=
  ⟨s.data.map Char.toLower⟩

/-- Does `needle` occur as a contiguous substring?  Python `needle in hay`. -/
def listContainsSub (needle : List Char) : List Char → Bool
  | [] => needle.isEmpty
  | c :: cs => listStartsWith needle (c :: cs) || listContainsSub needle cs

/-- Python `needle in hay` on strings. -/
def strContains (hay needle : String) : Bool :=
  listContainsSub needle.data hay.data

/-- Index of the first occurrence of `needle`, Python `hay.find(needle)`
(with `none` for `-1`). -/
def listFindSub (needle : List Char) : List Char → Option Nat
  | [] => if needle.isEmpty then some 0 else none
  | c :: cs =>
    if listStartsWith needle (c :: cs) then some 0
    else (listFindSub needle cs).map (· + 1)

/-- Python `hay.find(needle, start)` (with `none` for `-1`). -/
def strFindFrom (hay needle : String) (start : Nat) : Option Nat :=
  (listFindSub needle.data (hay.data.drop start)).map (· + start)

/-- Python slice `s[a:b]`. -/
def strSlice (s : String) (a b : Nat) : String :=
  ⟨(s.data.take b).drop a⟩

/-- Python `s.split(' ', 1)`: the part before the first space and, when a
space exists, the remainder after it. -/
def splitFirstSpace (s : String) : String × Option String :=
  go s.data
where
  go : List Char → String × Option String
    | [] => ("", none)
    | c :: cs =>
      if c == ' ' then ("", some ⟨cs⟩)
      else
        let r := go cs
        (⟨c :: r.1.data⟩, r.2)

/-! # Specification model and parser — `src/spec_parser.py` -/

/-- One parsed endpoint (the dict built at `spec_parser.py:70-77`). -/
structure Endpoint where
  method : String
  path : String
  description : String
  input : Option String
  output : Option String
  auth : String
  deriving DecidableEq, Repr

/-- `ServiceSpec` (`spec_parser.py:9-19`).  `models` is the Python dict
`Dict[str, List[str]]`, modelled as an insertion-ordered association list
whose update keeps the position of an existing key, exactly like a Python
dict.  `business_logic`, `database`, `deployment` are never assigned by the
parser and stay `none`. -/
structure ServiceSpec where
  name : String
  description : String
  runtime : String
  endpoints : List Endpoint
  models : List (String × List String)
  business_logic : Option String
  database : Option String
  deployment : Option String
  deriving DecidableEq, Repr

/-- The five section states of the parser. -/
inductive Section' where
  | endpoints | models | businessLogic | database | deployment
  deriving DecidableEq, Repr

/-- Python dict assignment `d[k] = v`: overwrite in place, else append. -/
def dictSet (m : List (String × List String)) (k : String) (v : List String) :
    List (String × List String) :=
  match m with
  | [] => [(k, v)]
  | (k', v') :: rest =>
    if k' == k then (k', v) :: rest else (k', v') :: dictSet rest k v

/-- `d[k].append(f)` for the models dict.  The parser only calls it while
`current_model` is a key of the dict, so the fall-through `[]` case is
unreachable. -/
def dictAppendField (m : List (String × List String)) (k : String)
    (f : String) : List (String × List String) :=
  match m with
  | [] => []
  | (k', v') :: rest =>
    if k' == k then (k', v' ++ [f]) :: rest
    else (k', v') :: dictAppendField rest k f

/-- Replace the last element of a list (used to model mutation through the
`current_endpoint` alias, which is always the most recently appended
endpoint). -/
def modifyLast (f : α → α) : List α → List α
  | [] => []
  | [x] => [f x]
  | x :: y :: rest => x :: modifyLast f (y :: rest)

/-- Mutable state of the parsing loop (`spec_parser.py:28-41`).
`hasCurrentEndpoint` models `current_endpoint is not None`; the aliased dict
is always the last element of `endpoints`.  `currentModel` models the
`current_model` name; Python tests it for truthiness, so the empty string
counts as unset. -/
structure PState where
  name : String
  description : String
  runtime : String
  endpoints : List Endpoint
  models : List (String × List String)
  currentSection : Option Section'
  hasCurrentEndpoint : Bool
  currentModel : Option String

/-- Truthiness of `current_model` (a `str` in Python: empty string is falsy). -/
def optStrTruthy : Option String → Bool
  | none => false
  | some s => !s.data.isEmpty

/-- The body of the `for line in lines` loop of `SpecParser.parse`
(`spec_parser.py:43-97`), one line at a time. -/
def parseLine (st : PState) (rawLine : String) : PState :=
  let line := strTrim rawLine
  if strStartsWith line "# Service Name:" then
    { st with name := strTrim (strReplace line "# Service Name:" "") }
  else if strStartsWith line "Description:" then
    { st with description := strTrim (strReplace line "Description:" "") }
  else if strStartsWith line "Runtime:" then
    { st with runtime := strTrim (strReplace line "Runtime:" "") }
  else if line == "## Endpoints" then
    { st with currentSection := some .endpoints }
  else if line == "## Models" then
    { st with currentSection := some .models }
  else if line == "## Business Logic" then
    { st with currentSection := some .businessLogic }
  else if line == "## Database" then
    { st with currentSection := some .database }
  else if line == "## Deployment" then
    { st with currentSection := some .deployment }
  else if st.currentSection == some .endpoints && strStartsWith line "### " then
    let methodPath := strReplace line "### " ""
    let parts := splitFirstSpace methodPath
    let ep : Endpoint :=
      { method := parts.1
        path := (parts.2.getD "/")
        description := ""
        input := none
        output := none
        auth := "None" }
    { st with endpoints := st.endpoints ++ [ep], hasCurrentEndpoint := true }
  else if st.currentSection == some .endpoints && st.hasCurrentEndpoint &&
      strStartsWith line "- " then
    let fieldValue : String := ⟨line.data.drop 2⟩
    let upd : Endpoint → Endpoint := fun ep =>
      if strStartsWith fieldValue "Description:" then
        { ep with description := strTrim (strReplace fieldValue "Description:" "") }
      else if strStartsWith fieldValue "Input:" then
        { ep with input := some (strTrim (strReplace fieldValue "Input:" "")) }
      else if strStartsWith fieldValue "Output:" then
        { ep with output := some (strTrim (strReplace fieldValue "Output:" "")) }
      else if strStartsWith fieldValue "Auth:" then
        { ep with auth := strTrim (strReplace fieldValue "Auth:" "") }
      else ep
    { st with endpoints := modifyLast upd st.endpoints }
  else if st.currentSection == some .models && strStartsWith line "### " then
    let modelName := strReplace line "### " ""
    { st with currentModel := some modelName,
              models := dictSet st.models modelName [] }
  else if st.currentSection == some .models && optStrTruthy st.currentModel &&
      strStartsWith line "- " then
    let fieldDef : String := ⟨line.data.drop 2⟩
    { st with models := dictAppendField st.models (st.currentModel.getD "") fieldDef }
  else
    st

/-- `SpecParser.parse` (`spec_parser.py:25-99`). -/
def specParse (specContent : String) : ServiceSpec :=
  let init : PState :=
    { name := ""
      description := ""
      runtime := "Node.js 20"
      endpoints := []
      models := []
      currentSection := none
      hasCurrentEndpoint := false
      currentModel := none }
  let fin := (strLines specContent).foldl parseLine init
  { name := fin.name
    description := fin.description
    runtime := fin.runtime
    endpoints := fin.endpoints
    models := fin.models
    business_logic := none
    database := none
    deployment := none }

/-! # Canonical model shape — spec §3 / §4.1, and `src/prototype.py:185-196`

The spec's canonical shape for `models` is an ordered sequence of
`{name, fields}` records, one record per `### ` header in declaration order
(`prototype.py` builds exactly this shape).  It is the comparison point for
the refinement claim about the parser's `models` field. -/

/-- One model record in the canonical shape. -/
structure CModel where
  name : String
  fields : List String
  deriving DecidableEq, Repr

/-- State for the canonical models scan: the current section, the records so
far, and whether a `### ` header has opened a record (a `- ` line before any
header is dropped). -/
structure CMState where
  currentSection : Option Section'
  models : List CModel
  hasCurrentModel : Bool

/-- One line of the canonical models scan.  Section headers and the document
header lines are recognized exactly as in `parseLine`; within `## Models`, a
`### ` line starts a new record appended in declaration order and `- ` lines
append their raw remainder to the newest record (`prototype.py:185-196`). -/
def canonicalModelsLine (st : CMState) (rawLine : String) : CMState :=
  let line := strTrim rawLine
  if strStartsWith line "# Service Name:" then st
  else if strStartsWith line "Description:" then st
  else if strStartsWith line "Runtime:" then st
  else if line == "## Endpoints" then { st with currentSection := some .endpoints }
  else if line == "## Models" then { st with currentSection := some .models }
  else if line == "## Business Logic" then { st with currentSection := some .businessLogic }
  else if line == "## Database" then { st with currentSection := some .database }
  else if line == "## Deployment" then { st with currentSection := some .deployment }
  else if st.currentSection == some .models && strStartsWith line "### " then
    let modelName := strReplace line "### " ""
    { st with models := st.models ++ [{ name := modelName, fields := [] }],
              hasCurrentModel := true }
  else if st.currentSection == some .models && st.hasCurrentModel &&
      strStartsWith line "- " then
    let fieldDef : String := ⟨line.data.drop 2⟩
    { st with models := modifyLast (fun m => { m with fields := m.fields ++ [fieldDef] }) st.models }
  else
    st

/-- The canonical ordered sequence of model records of a specification text
(the shape `prototype.py`'s parser produces and the spec declares canonical). -/
def canonicalModels (specContent : String) : List CModel :=
  ((strLines specContent).foldl canonicalModelsLine
    { currentSection := none, models := [], hasCurrentModel := false }).models

/-- View a canonical record sequence with the same carrier type as the
parser's association-list `models` field, for shape comparison. -/
def cmodelPairs (ms : List CModel) : List (String × List String) :=
  ms.map fun m => (m.name, m.fields)

/-! # Document-level validation — `validate_spec`

`src/src/cli.py:157` calls `parser.validate_spec(spec)` and
`src/future/tests/test_parser.py:127-199` pins its behavior, but the module
that defines it (`src/core/parser.py`) is not in the repository. -/

/-- Modelled from the spec: `src/core/parser.py`'s `SpecParser.validate_spec`
is missing from the repository (only its caller in `src/src/cli.py` and its
tests in `src/future/tests/test_parser.py` exist).  Spec §4.1: "Separate
validate(document) -> ordered sequence of error strings: non-empty name
required; at least one endpoint required; every endpoint must have non-empty
`method` and non-empty `path` (each missing condition is its own distinct
error string, so a fully-empty endpoint yields two errors)."  The error
strings are the ones the tests assert: "Service name is required", "At least
one endpoint must be defined", "HTTP method is required", "Path is
required". -/
def validateSpecDoc (spec : ServiceSpec) : List String :=
  (if spec.name = "" then ["Service name is required"] else []) ++
  (if spec.endpoints = [] then ["At least one endpoint must be defined"] else []) ++
  spec.endpoints.flatMap fun ep =>
    (if ep.method = "" then ["HTTP method is required"] else []) ++
    (if ep.path = "" then ["Path is required"] else [])

/-! # Artifact sets

`Dict[str, str]` from file name to file content, modelled as an
insertion-ordered association list with Python-dict update semantics. -/

/-- An Artifact Set: named mapping from file path to content. -/
abbrev ArtifactSet := List (String × String)

/-- Python `files[k]` / `files.get(k)`. -/
def afLookup (files : ArtifactSet) (k : String) : Option String :=
  match files with
  | [] => none
  | (k', v) :: rest => if k' == k then some v else afLookup rest k

/-- Python `k in files`. -/
def afMem (files : ArtifactSet) (k : String) : Bool :=
  (afLookup files k).isSome

/-- Python `files[k] = v`: overwrite in place, else append. -/
def afInsert (files : ArtifactSet) (k v : String) : ArtifactSet :=
  match files with
  | [] => [(k, v)]
  | (k', v') :: rest =>
    if k' == k then (k', v) :: rest else (k', v') :: afInsert rest k v

/-- Python `files.update(new)`. -/
def afUpdate (files new : ArtifactSet) : ArtifactSet :=
  new.foldl (fun acc kv => afInsert acc kv.1 kv.2) files

/-- Python string truthiness fallback `s or d`. -/
def pyOr (s d : String) : String :=
  if s.data.isEmpty then d else s

/-- Python `s.upper()` (ASCII). -/
def strUpper (s : String) : String :=
  ⟨s.data.map Char.toUpper⟩

/-- Python `sep.join(parts)`. -/
def strJoin (sep : String) : List String → String
  | [] => ""
  | [x] => x
  | x :: y :: rest => x ++ sep ++ strJoin sep (y :: rest)

/-- The `os.getenv` reads performed by the embedded code, passed explicitly. -/
structure OsEnv where
  googleCloudProject : Option String
  googleCloudRegion : Option String

/-! # Deterministic synthesis generators — `src/terraform_validator.py:221-996`
and `src/terraform_code_generator.py:328-416` -/

/-- `TerraformValidator._generate_main_tf` (`terraform_validator.py:221-346`). -/
def genMainTf (spec : ServiceSpec) (providers : List String) : String :=
  let _serviceName :=
    strReplace (strReplace (strLower (pyOr spec.name "cloud-microservice")) " " "-") "_" "-"
  let content :=
    "# Generated Terraform Configuration for Multi-Cloud Deployment\n" ++
    "terraform \x7b\n" ++
    "  required_version = \">= 1.5\"\n" ++
    "  \n" ++
    "  required_providers \x7b"
  let content := content ++
    (if providers.contains "gcp" then
      "\n" ++
      "    google = \x7b\n" ++
      "      source  = \"hashicorp/google\"\n" ++
      "      version = \"~> 5.0\"\n" ++
      "    \x7d"
    else "")
  let content := content ++
    (if providers.contains "aws" then
      "\n" ++
      "    aws = \x7b\n" ++
      "      source  = \"hashicorp/aws\"\n" ++
      "      version = \"~> 5.0\"\n" ++
      "    \x7d"
    else "")
  let content := content ++
    ("\n" ++
     "  \x7d\n" ++
     "\x7d\n" ++
     "\n" ++
     "# Local values for consistent naming\n" ++
     "locals \x7b\n" ++
     "  service_name = var.service_name\n" ++
     "  environment = var.environment\n" ++
     "  \n" ++
     "  common_tags = \x7b\n" ++
     "    Service     = var.service_name\n" ++
     "    Environment = var.environment\n" ++
     "    ManagedBy   = \"cloud-function-saas\"\n" ++
     "  \x7d\n" ++
     "\x7d\n")
  let content := content ++
    (if providers.contains "gcp" then
      "\n" ++
      "# Google Cloud Provider Configuration\n" ++
      "provider \"google\" \x7b\n" ++
      "  project = var.project_id\n" ++
      "  region  = var.region\n" ++
      "\x7d\n" ++
      "\n" ++
      "# GCP Serverless Module\n" ++
      "module \"gcp_serverless\" \x7b\n" ++
      "  source = \"./terraform/modules/gcp-serverless\"\n" ++
      "  \n" ++
      "  project_id       = var.project_id\n" ++
      "  region          = var.region\n" ++
      "  service_name    = local.service_name\n" ++
      "  container_image = var.container_image\n" ++
      "  container_port  = var.container_port\n" ++
      "  environment     = var.environment\n" ++
      "  \n" ++
      "  # Resource configuration\n" ++
      "  cpu_limit    = var.cpu_limit\n" ++
      "  memory_limit = var.memory_limit\n" ++
      "  \n" ++
      "  # Scaling configuration\n" ++
      "  min_instances         = var.min_instances\n" ++
      "  max_instances         = var.max_instances\n" ++
      "  container_concurrency = var.container_concurrency\n" ++
      "  \n" ++
      "  # Security\n" ++
      "  allow_unauthenticated = var.allow_unauthenticated\n" ++
      "  \n" ++
      "  # Environment variables\n" ++
      "  environment_variables = var.environment_variables\n" ++
      "  \n" ++
      "  # Monitoring\n" ++
      "  enable_monitoring   = var.enable_monitoring\n" ++
      "  health_check_path  = var.health_check_path\n" ++
      "\x7d\n"
    else "")
  let content := content ++
    (if providers.contains "aws" then
      "\n" ++
      "# AWS Provider Configuration\n" ++
      "provider \"aws\" \x7b\n" ++
      "  region = var.aws_region\n" ++
      "\x7d\n" ++
      "\n" ++
      "# AWS Serverless Module\n" ++
      "module \"aws_serverless\" \x7b\n" ++
      "  source = \"./terraform/modules/aws-serverless\"\n" ++
      "  \n" ++
      "  aws_region       = var.aws_region\n" ++
      "  service_name     = local.service_name\n" ++
      "  container_image  = var.container_image\n" ++
      "  container_port   = var.container_port\n" ++
      "  environment      = var.environment\n" ++
      "  \n" ++
      "  # ECS configuration\n" ++
      "  cpu_units    = var.cpu_units\n" ++
      "  memory_units = var.memory_units\n" ++
      "  desired_count = var.desired_count\n" ++
      "  \n" ++
      "  # Auto scaling\n" ++
      "  enable_autoscaling           = var.enable_autoscaling\n" ++
      "  min_capacity                = var.min_capacity\n" ++
      "  max_capacity                = var.max_capacity\n" ++
      "  target_cpu_utilization      = var.target_cpu_utilization\n" ++
      "  target_memory_utilization   = var.target_memory_utilization\n" ++
      "  \n" ++
      "  # Networking\n" ++
      "  create_vpc          = var.create_vpc\n" ++
      "  vpc_cidr           = var.vpc_cidr\n" ++
      "  public_subnet_cidrs = var.public_subnet_cidrs\n" ++
      "  \n" ++
      "  # Environment variables\n" ++
      "  environment_variables = var.environment_variables\n" ++
      "  \n" ++
      "  # Monitoring\n" ++
      "  enable_monitoring = var.enable_monitoring\n" ++
      "  health_check_path = var.health_check_path\n" ++
      "\x7d\n"
    else "")
  content

/-- `TerraformValidator._generate_variables_tf`
(`terraform_validator.py:348-541`). -/
def genVariablesTf (_spec : ServiceSpec) (providers : List String) : String :=
  let content :=
    "# Terraform Variables for Multi-Cloud Deployment\n" ++
    "\n" ++
    "variable \"service_name\" \x7b\n" ++
    "  description = \"Name of the service\"\n" ++
    "  type        = string\n" ++
    "  validation \x7b\n" ++
    "    condition     = can(regex(\"^[a-z0-9-]+$\", var.service_name))\n" ++
    "    error_message = \"Service name must contain only lowercase letters, numbers, and hyphens.\"\n" ++
    "  \x7d\n" ++
    "\x7d\n" ++
    "\n" ++
    "variable \"environment\" \x7b\n" ++
    "  description = \"Environment name (dev, staging, prod)\"\n" ++
    "  type        = string\n" ++
    "  default     = \"dev\"\n" ++
    "\x7d\n" ++
    "\n" ++
    "variable \"container_image\" \x7b\n" ++
    "  description = \"Container image URL\"\n" ++
    "  type        = string\n" ++
    "\x7d\n" ++
    "\n" ++
    "variable \"container_port\" \x7b\n" ++
    "  description = \"Port that the container listens on\"\n" ++
    "  type        = number\n" ++
    "  default     = 8080\n" ++
    "\x7d\n" ++
    "\n" ++
    "# Environment Variables\n" ++
    "variable \"environment_variables\" \x7b\n" ++
    "  description = \"Environment variables for the container\"\n" ++
    "  type        = map(string)\n" ++
    "  default     = \x7b\n" ++
    "    NODE_ENV = \"production\"\n" ++
    "    LOG_LEVEL = \"info\"\n" ++
    "  \x7d\n" ++
    "\x7d\n" ++
    "\n" ++
    "# Health Check\n" ++
    "variable \"health_check_path\" \x7b\n" ++
    "  description = \"Path for health check endpoint\"\n" ++
    "  type        = string\n" ++
    "  default     = \"/health\"\n" ++
    "\x7d\n" ++
    "\n" ++
    "# Monitoring\n" ++
    "variable \"enable_monitoring\" \x7b\n" ++
    "  description = \"Enable monitoring and alerting\"\n" ++
    "  type        = bool\n" ++
    "  default     = true\n" ++
    "\x7d\n"
  let content := content ++
    (if providers.contains "gcp" then
      "\n" ++
      "# GCP Variables\n" ++
      "variable \"project_id\" \x7b\n" ++
      "  description = \"GCP Project ID\"\n" ++
      "  type        = string\n" ++
      "\x7d\n" ++
      "\n" ++
      "variable \"region\" \x7b\n" ++
      "  description = \"GCP region for deployment\"\n" ++
      "  type        = string\n" ++
      "  default     = \"us-central1\"\n" ++
      "\x7d\n" ++
      "\n" ++
      "# GCP Resource Configuration\n" ++
      "variable \"cpu_limit\" \x7b\n" ++
      "  description = \"CPU limit for the container\"\n" ++
      "  type        = string\n" ++
      "  default     = \"1000m\"\n" ++
      "\x7d\n" ++
      "\n" ++
      "variable \"memory_limit\" \x7b\n" ++
      "  description = \"Memory limit for the container\"\n" ++
      "  type        = string\n" ++
      "  default     = \"512Mi\"\n" ++
      "\x7d\n" ++
      "\n" ++
      "# GCP Scaling Configuration\n" ++
      "variable \"min_instances\" \x7b\n" ++
      "  description = \"Minimum number of instances\"\n" ++
      "  type        = string\n" ++
      "  default     = \"0\"\n" ++
      "\x7d\n" ++
      "\n" ++
      "variable \"max_instances\" \x7b\n" ++
      "  description = \"Maximum number of instances\"\n" ++
      "  type        = string\n" ++
      "  default     = \"10\"\n" ++
      "\x7d\n" ++
      "\n" ++
      "variable \"container_concurrency\" \x7b\n" ++
      "  description = \"Maximum number of concurrent requests per container\"\n" ++
      "  type        = number\n" ++
      "  default     = 80\n" ++
      "\x7d\n" ++
      "\n" ++
      "# GCP Security\n" ++
      "variable \"allow_unauthenticated\" \x7b\n" ++
      "  description = \"Allow unauthenticated access to the service\"\n" ++
      "  type        = bool\n" ++
      "  default     = true\n" ++
      "\x7d\n"
    else "")
  let content := content ++
    (if providers.contains "aws" then
      "\n" ++
      "# AWS Variables\n" ++
      "variable \"aws_region\" \x7b\n" ++
      "  description = \"AWS region for deployment\"\n" ++
      "  type        = string\n" ++
      "  default     = \"us-west-2\"\n" ++
      "\x7d\n" ++
      "\n" ++
      "# AWS ECS Configuration\n" ++
      "variable \"cpu_units\" \x7b\n" ++
      "  description = \"CPU units for the task (256, 512, 1024, 2048, 4096)\"\n" ++
      "  type        = number\n" ++
      "  default     = 512\n" ++
      "  validation \x7b\n" ++
      "    condition     = contains([256, 512, 1024, 2048, 4096], var.cpu_units)\n" ++
      "    error_message = \"CPU units must be one of: 256, 512, 1024, 2048, 4096.\"\n" ++
      "  \x7d\n" ++
      "\x7d\n" ++
      "\n" ++
      "variable \"memory_units\" \x7b\n" ++
      "  description = \"Memory units for the task (MB)\"\n" ++
      "  type        = number\n" ++
      "  default     = 1024\n" ++
      "\x7d\n" ++
      "\n" ++
      "variable \"desired_count\" \x7b\n" ++
      "  description = \"Desired number of running tasks\"\n" ++
      "  type        = number\n" ++
      "  default     = 1\n" ++
      "\x7d\n" ++
      "\n" ++
      "# AWS Auto Scaling\n" ++
      "variable \"enable_autoscaling\" \x7b\n" ++
      "  description = \"Enable auto scaling for the ECS service\"\n" ++
      "  type        = bool\n" ++
      "  default     = true\n" ++
      "\x7d\n" ++
      "\n" ++
      "variable \"min_capacity\" \x7b\n" ++
      "  description = \"Minimum number of tasks\"\n" ++
      "  type        = number\n" ++
      "  default     = 1\n" ++
      "\x7d\n" ++
      "\n" ++
      "variable \"max_capacity\" \x7b\n" ++
      "  description = \"Maximum number of tasks\"\n" ++
      "  type        = number\n" ++
      "  default     = 10\n" ++
      "\x7d\n" ++
      "\n" ++
      "variable \"target_cpu_utilization\" \x7b\n" ++
      "  description = \"Target CPU utilization for auto scaling\"\n" ++
      "  type        = number\n" ++
      "  default     = 70\n" ++
      "\x7d\n" ++
      "\n" ++
      "variable \"target_memory_utilization\" \x7b\n" ++
      "  description = \"Target memory utilization for auto scaling\"\n" ++
      "  type        = number\n" ++
      "  default     = 80\n" ++
      "\x7d\n" ++
      "\n" ++
      "# AWS VPC Configuration\n" ++
      "variable \"create_vpc\" \x7b\n" ++
      "  description = \"Whether to create a new VPC\"\n" ++
      "  type        = bool\n" ++
      "  default     = true\n" ++
      "\x7d\n" ++
      "\n" ++
      "variable \"vpc_cidr\" \x7b\n" ++
      "  description = \"CIDR block for VPC\"\n" ++
      "  type        = string\n" ++
      "  default     = \"10.0.0.0/16\"\n" ++
      "\x7d\n" ++
      "\n" ++
      "variable \"public_subnet_cidrs\" \x7b\n" ++
      "  description = \"CIDR blocks for public subnets\"\n" ++
      "  type        = list(string)\n" ++
      "  default     = [\"10.0.1.0/24\", \"10.0.2.0/24\"]\n" ++
      "\x7d\n"
    else "")
  content

/-- `TerraformValidator._generate_outputs_tf`
(`terraform_validator.py:543-644`). -/
def genOutputsTf (_spec : ServiceSpec) (providers : List String) : String :=
  let content :=
    "# Terraform Outputs for Multi-Cloud Deployment\n" ++
    "\n"
  let content := content ++
    (if providers.contains "gcp" then
      "# GCP Outputs\n" ++
      "output \"gcp_service_url\" \x7b\n" ++
      "  description = \"URL of the GCP Cloud Run service\"\n" ++
      "  value       = module.gcp_serverless.service_url\n" ++
      "\x7d\n" ++
      "\n" ++
      "output \"gcp_service_name\" \x7b\n" ++
      "  description = \"Name of the GCP Cloud Run service\"\n" ++
      "  value       = module.gcp_serverless.service_name\n" ++
      "\x7d\n" ++
      "\n" ++
      "output \"gcp_deployment_info\" \x7b\n" ++
      "  description = \"GCP deployment information\"\n" ++
      "  value       = module.gcp_serverless.deployment_info\n" ++
      "\x7d\n"
    else "")
  let content := content ++
    (if providers.contains "aws" then
      "# AWS Outputs\n" ++
      "output \"aws_service_url\" \x7b\n" ++
      "  description = \"URL of the AWS load balancer\"\n" ++
      "  value       = module.aws_serverless.service_url\n" ++
      "\x7d\n" ++
      "\n" ++
      "output \"aws_service_name\" \x7b\n" ++
      "  description = \"Name of the AWS ECS service\"\n" ++
      "  value       = module.aws_serverless.service_name\n" ++
      "\x7d\n" ++
      "\n" ++
      "output \"aws_deployment_info\" \x7b\n" ++
      "  description = \"AWS deployment information\"\n" ++
      "  value       = module.aws_serverless.deployment_info\n" ++
      "\x7d\n"
    else "")
  let content := content ++
    (if providers.length == 1 then
      if providers.contains "gcp" then
        "\n" ++
        "# Primary Service URL\n" ++
        "output \"service_url\" \x7b\n" ++
        "  description = \"Primary service URL\"\n" ++
        "  value       = module.gcp_serverless.service_url\n" ++
        "\x7d\n"
      else if providers.contains "aws" then
        "\n" ++
        "# Primary Service URL\n" ++
        "output \"service_url\" \x7b\n" ++
        "  description = \"Primary service URL\"\n" ++
        "  value       = module.aws_serverless.service_url\n" ++
        "\x7d\n"
      else ""
    else
      "\n" ++
      "# Multi-Cloud Service URLs\n" ++
      "output \"service_urls\" \x7b\n" ++
      "  description = \"All service URLs\"\n" ++
      "  value = \x7b" ++
      (if providers.contains "gcp" then
        "\n" ++
        "    gcp = module.gcp_serverless.service_url"
      else "") ++
      (if providers.contains "aws" then
        "\n" ++
        "    aws = module.aws_serverless.service_url"
      else "") ++
      "\n" ++
      "  \x7d\n" ++
      "\x7d\n" ++
      "\n" ++
      "# Primary Service URL (defaults to GCP if available)\n" ++
      "output \"service_url\" \x7b\n" ++
      "  description = \"Primary service URL\"\n" ++
      "  value       = " ++
      (if providers.contains "gcp" then "module.gcp_serverless.service_url"
       else "module.aws_serverless.service_url") ++
      "\n" ++
      "\x7d\n")
  let content := content ++
    ("\n" ++
     "# Deployment Summary\n" ++
     "output \"deployment_summary\" \x7b\n" ++
     "  description = \"Complete deployment summary\"\n" ++
     "  value = \x7b\n" ++
     "    service_name = var.service_name\n" ++
     "    environment  = var.environment\n" ++
     "    providers    = [" ++
     strJoin ", " (providers.map fun p => "\"" ++ p ++ "\"") ++
     "]\n" ++
     "    deployed_at  = timestamp()\n" ++
     "  \x7d\n" ++
     "\x7d\n")
  content

/-- The runtime dispatch both `_generate_missing_files`
(`terraform_validator.py:207-217`) and `_generate_dockerfile`
(`terraform_validator.py:671-753`) perform on the lowercased runtime string:
`if 'node' in runtime or 'javascript' in runtime: ... elif 'python' in
runtime: ... else: ...`. -/
inductive RuntimeKind where
  | node | python | other
  deriving DecidableEq, Repr

/-- Classify a lowercased runtime string as the sources' `if/elif` chain does. -/
def runtimeKindOf (runtime : String) : RuntimeKind :=
  if strContains runtime "node" || strContains runtime "javascript" then .node
  else if strContains runtime "python" then .python
  else .other

/-- `(spec.runtime or 'Node.js').lower()` as computed at
`terraform_validator.py:207` and `terraform_validator.py:671`. -/
def specRuntimeLower (spec : ServiceSpec) : String :=
  strLower (pyOr spec.runtime "Node.js")

/-- `TerraformValidator._generate_dockerfile` (`terraform_validator.py:668-753`). -/
def genDockerfile (spec : ServiceSpec) : String :=
  match runtimeKindOf (specRuntimeLower spec) with
  | .node =>
    "# Node.js Dockerfile for Cloud Run/Fargate\n" ++
    "FROM node:20-alpine\n" ++
    "\n" ++
    "WORKDIR /app\n" ++
    "\n" ++
    "# Copy package files\n" ++
    "COPY package*.json ./\n" ++
    "\n" ++
    "# Install dependencies\n" ++
    "RUN npm ci --only=production\n" ++
    "\n" ++
    "# Copy application code\n" ++
    "COPY . .\n" ++
    "\n" ++
    "# Create non-root user\n" ++
    "RUN addgroup -g 1001 -S nodejs\n" ++
    "RUN adduser -S nodejs -u 1001\n" ++
    "USER nodejs\n" ++
    "\n" ++
    "# Expose port\n" ++
    "EXPOSE 8080\n" ++
    "\n" ++
    "# Health check\n" ++
    "HEALTHCHECK --interval=30s --timeout=10s --start-period=5s --retries=3 \\\n" ++
    "    CMD curl -f http://localhost:8080/health || exit 1\n" ++
    "\n" ++
    "# Start application\n" ++
    "CMD [\"npm\", \"start\"]\n"
  | .python =>
    "# Python Dockerfile for Cloud Run/Fargate\n" ++
    "FROM python:3.11-slim\n" ++
    "\n" ++
    "WORKDIR /app\n" ++
    "\n" ++
    "# Install system dependencies\n" ++
    "RUN apt-get update && apt-get install -y \\\n" ++
    "    curl \\\n" ++
    "    && rm -rf /var/lib/apt/lists/*\n" ++
    "\n" ++
    "# Copy requirements first for better caching\n" ++
    "COPY requirements.txt .\n" ++
    "\n" ++
    "# Install Python dependencies\n" ++
    "RUN pip install --no-cache-dir -r requirements.txt\n" ++
    "\n" ++
    "# Copy application code\n" ++
    "COPY . .\n" ++
    "\n" ++
    "# Create non-root user\n" ++
    "RUN useradd --create-home --shell /bin/bash app\n" ++
    "USER app\n" ++
    "\n" ++
    "# Expose port\n" ++
    "EXPOSE 8080\n" ++
    "\n" ++
    "# Health check\n" ++
    "HEALTHCHECK --interval=30s --timeout=10s --start-period=5s --retries=3 \\\n" ++
    "    CMD curl -f http://localhost:8080/health || exit 1\n" ++
    "\n" ++
    "# Start application\n" ++
    "CMD [\"python\", \"main.py\"]\n"
  | .other =>
    "# Default Node.js Dockerfile\n" ++
    "FROM node:20-alpine\n" ++
    "WORKDIR /app\n" ++
    "COPY package*.json ./\n" ++
    "RUN npm ci --only=production\n" ++
    "COPY . .\n" ++
    "RUN addgroup -g 1001 -S nodejs && adduser -S nodejs -u 1001\n" ++
    "USER nodejs\n" ++
    "EXPOSE 8080\n" ++
    "HEALTHCHECK --interval=30s --timeout=10s --start-period=5s --retries=3 \\\n" ++
    "    CMD curl -f http://localhost:8080/health || exit 1\n" ++
    "CMD [\"npm\", \"start\"]\n"

/-- `TerraformValidator._generate_package_json` (`terraform_validator.py:755-787`). -/
def genPackageJson (spec : ServiceSpec) : String :=
  let serviceName := strReplace (strLower (pyOr spec.name "cloud-microservice")) " " "-"
  "\x7b\n" ++
  "  \"name\": \"" ++ serviceName ++ "\",\n" ++
  "  \"version\": \"1.0.0\",\n" ++
  "  \"description\": \"" ++ pyOr spec.description "Generated microservice" ++ "\",\n" ++
  "  \"main\": \"index.js\",\n" ++
  "  \"scripts\": \x7b\n" ++
  "    \"start\": \"node index.js\",\n" ++
  "    \"dev\": \"node index.js\",\n" ++
  "    \"test\": \"echo \\\"Error: no test specified\\\" && exit 1\"\n" ++
  "  \x7d,\n" ++
  "  \"dependencies\": \x7b\n" ++
  "    \"express\": \"^4.18.2\",\n" ++
  "    \"cors\": \"^2.8.5\",\n" ++
  "    \"helmet\": \"^7.0.0\",\n" ++
  "    \"morgan\": \"^1.10.0\"\n" ++
  "  \x7d,\n" ++
  "  \"engines\": \x7b\n" ++
  "    \"node\": \">=20.0.0\"\n" ++
  "  \x7d,\n" ++
  "  \"keywords\": [\n" ++
  "    \"microservice\",\n" ++
  "    \"api\",\n" ++
  "    \"cloud-function-saas\"\n" ++
  "  ],\n" ++
  "  \"author\": \"Cloud Function SaaS Generator\",\n" ++
  "  \"license\": \"MIT\"\n" ++
  "\x7d\n"

/-- The per-endpoint Express handler blocks of `_generate_nodejs_app`
(`terraform_validator.py:794-829`). -/
def nodejsEndpointsCode (endpoints : List Endpoint) : String :=
  endpoints.foldl
    (fun acc ep =>
    let method := strLower ep.method
    let path := ep.path
    let description := ep.description
    if path == "/health" then acc
    else if method == "get" then
      acc ++
      "\n" ++
      "// " ++ description ++ "\n" ++
      "app.get(\x27" ++ path ++ "\x27, (req, res) => \x7b\n" ++
      "  res.json(\x7b \n" ++
      "    message: \x27" ++ description ++ "\x27,\n" ++
      "    path: \x27" ++ path ++ "\x27,\n" ++
      "    method: \x27" ++ strUpper method ++ "\x27,\n" ++
      "    timestamp: new Date().toISOString()\n" ++
      "  \x7d);\n" ++
      "\x7d);\n"
    else if method == "post" then
      acc ++
      "\n" ++
      "// " ++ description ++ "  \n" ++
      "app.post(\x27" ++ path ++ "\x27, (req, res) => \x7b\n" ++
      "  res.json(\x7b \n" ++
      "    message: \x27" ++ description ++ "\x27,\n" ++
      "    data: req.body,\n" ++
      "    path: \x27" ++ path ++ "\x27,\n" ++
      "    method: \x27" ++ strUpper method ++ "\x27,\n" ++
      "    timestamp: new Date().toISOString()\n" ++
      "  \x7d);\n" ++
      "\x7d);\n"
    else acc) ""

/-- `TerraformValidator._generate_nodejs_app` (`terraform_validator.py:789-890`). -/
def genNodejsApp (spec : ServiceSpec) : String :=
  let serviceName := pyOr spec.name "Cloud Microservice"
  let endpointsCode := nodejsEndpointsCode spec.endpoints
  "const express = require(\x27express\x27);\n" ++
  "const cors = require(\x27cors\x27);\n" ++
  "const helmet = require(\x27helmet\x27);\n" ++
  "const morgan = require(\x27morgan\x27);\n" ++
  "\n" ++
  "const app = express();\n" ++
  "const port = process.env.PORT || 8080;\n" ++
  "\n" ++
  "// Middleware\n" ++
  "app.use(helmet());\n" ++
  "app.use(cors());\n" ++
  "app.use(morgan(\x27combined\x27));\n" ++
  "app.use(express.json());\n" ++
  "\n" ++
  "// Health check endpoint\n" ++
  "app.get(\x27/health\x27, (req, res) => \x7b\n" ++
  "  res.json(\x7b \n" ++
  "    status: \x27healthy\x27,\n" ++
  "    service: \x27" ++ serviceName ++ "\x27,\n" ++
  "    timestamp: new Date().toISOString(),\n" ++
  "    version: \x271.0.0\x27\n" ++
  "  \x7d);\n" ++
  "\x7d);\n" ++
  "\n" ++
  "// Root endpoint\n" ++
  "app.get(\x27/\x27, (req, res) => \x7b\n" ++
  "  res.json(\x7b\n" ++
  "    message: \x27Welcome to " ++ serviceName ++ "\x27,\n" ++
  "    description: \x27" ++ pyOr spec.description "Generated microservice" ++ "\x27,\n" ++
  "    health: \x27/health\x27,\n" ++
  "    timestamp: new Date().toISOString()\n" ++
  "  \x7d);\n" ++
  "\x7d);\n" ++
  endpointsCode ++
  "\n" ++
  "// Error handling middleware\n" ++
  "app.use((err, req, res, next) => \x7b\n" ++
  "  console.error(err.stack);\n" ++
  "  res.status(500).json(\x7b \n" ++
  "    error: \x27Something went wrong!\x27,\n" ++
  "    timestamp: new Date().toISOString()\n" ++
  "  \x7d);\n" ++
  "\x7d);\n" ++
  "\n" ++
  "// 404 handler\n" ++
  "app.use((req, res) => \x7b\n" ++
  "  res.status(404).json(\x7b \n" ++
  "    error: \x27Endpoint not found\x27,\n" ++
  "    path: req.path,\n" ++
  "    timestamp: new Date().toISOString()\n" ++
  "  \x7d);\n" ++
  "\x7d);\n" ++
  "\n" ++
  "// Start server\n" ++
  "app.listen(port, \x270.0.0.0\x27, () => \x7b\n" ++
  "  console.log(`" ++ serviceName ++ " listening on port $\x7bport\x7d`);\n" ++
  "  console.log(`Health check: http://localhost:$\x7bport\x7d/health`);\n" ++
  "\x7d);\n" ++
  "\n" ++
  "module.exports = app;\n"

/-- `TerraformValidator._generate_requirements_txt`
(`terraform_validator.py:892-899`). -/
def genRequirementsTxt (_spec : ServiceSpec) : String :=
  "fastapi==0.104.1\n" ++
  "uvicorn[standard]==0.24.0\n" ++
  "pydantic==2.5.0\n" ++
  "python-multipart==0.0.6\n"

/-- The per-endpoint FastAPI handler blocks of `_generate_python_app`
(`terraform_validator.py:906-941`). -/
def pythonEndpointsCode (endpoints : List Endpoint) : String :=
  endpoints.foldl
    (fun acc ep =>
    let method := strLower ep.method
    let path := ep.path
    let description := ep.description
    let fname := pyOr (strReplace (strReplace path "/" "") "-" "_") "endpoint"
    if path == "/health" || path == "/" then acc
    else if method == "get" then
      acc ++
      "\n" ++
      "@app.get(\"" ++ path ++ "\")\n" ++
      "async def " ++ fname ++ "():\n" ++
      "    \"\"\"" ++ description ++ "\"\"\"\n" ++
      "    return \x7b\n" ++
      "        \"message\": \"" ++ description ++ "\",\n" ++
      "        \"path\": \"" ++ path ++ "\",\n" ++
      "        \"method\": \"" ++ strUpper method ++ "\",\n" ++
      "        \"timestamp\": datetime.utcnow().isoformat()\n" ++
      "    \x7d\n"
    else if method == "post" then
      acc ++
      "\n" ++
      "@app.post(\"" ++ path ++ "\")\n" ++
      "async def " ++ fname ++ "(data: dict):\n" ++
      "    \"\"\"" ++ description ++ "\"\"\"\n" ++
      "    return \x7b\n" ++
      "        \"message\": \"" ++ description ++ "\",\n" ++
      "        \"data\": data,\n" ++
      "        \"path\": \"" ++ path ++ "\",\n" ++
      "        \"method\": \"" ++ strUpper method ++ "\",\n" ++
      "        \"timestamp\": datetime.utcnow().isoformat()\n" ++
      "    \x7d\n"
    else acc) ""

/-- `TerraformValidator._generate_python_app` (`terraform_validator.py:901-996`). -/
def genPythonApp (spec : ServiceSpec) : String :=
  let serviceName := pyOr spec.name "Cloud Microservice"
  let endpointsCode := pythonEndpointsCode spec.endpoints
  "\x69mport os\n" ++
  "\x69mport uvicorn\n" ++
  "from datetime import datetime\n" ++
  "from fastapi import FastAPI, HTTPException\n" ++
  "from fastapi.middleware.cors import CORSMiddleware\n" ++
  "from pydantic import BaseModel\n" ++
  "\n" ++
  "# Initialize FastAPI app\n" ++
  "app = FastAPI(\n" ++
  "    title=\"" ++ serviceName ++ "\",\n" ++
  "    description=\"" ++ pyOr spec.description "Generated microservice" ++ "\",\n" ++
  "    version=\"1.0.0\"\n" ++
  ")\n" ++
  "\n" ++
  "# Add CORS middleware\n" ++
  "app.add_middleware(\n" ++
  "    CORSMiddleware,\n" ++
  "    allow_origins=[\"*\"],\n" ++
  "    allow_credentials=True,\n" ++
  "    allow_methods=[\"*\"],\n" ++
  "    allow_headers=[\"*\"],\n" ++
  ")\n" ++
  "\n" ++
  "@app.get(\"/\")\n" ++
  "async def root():\n" ++
  "    \"\"\"Root endpoint\"\"\"\n" ++
  "    return \x7b\n" ++
  "        \"message\": \"Welcome to " ++ serviceName ++ "\",\n" ++
  "        \"description\": \"" ++ pyOr spec.description "Generated microservice" ++ "\",\n" ++
  "        \"health\": \"/health\",\n" ++
  "        \"docs\": \"/docs\",\n" ++
  "        \"timestamp\": datetime.utcnow().isoformat()\n" ++
  "    \x7d\n" ++
  "\n" ++
  "@app.get(\"/health\")\n" ++
  "async def health_check():\n" ++
  "    \"\"\"Health check endpoint\"\"\"\n" ++
  "    return \x7b\n" ++
  "        \"status\": \"healthy\",\n" ++
  "        \"service\": \"" ++ serviceName ++ "\",\n" ++
  "        \"timestamp\": datetime.utcnow().isoformat(),\n" ++
  "        \"version\": \"1.0.0\"\n" ++
  "    \x7d\n" ++
  endpointsCode ++
  "\n" ++
  "if __name__ == \"__main__\":\n" ++
  "    port = int(os.environ.get(\"PORT\", 8080))\n" ++
  "    uvicorn.run(\n" ++
  "        \"main:app\",\n" ++
  "        host=\"0.0.0.0\",\n" ++
  "        port=port,\n" ++
  "        log_level=\"info\",\n" ++
  "        access_log=True\n" ++
  "    )\n"

/-- `TerraformCodeGenerator._generate_provider_tfvars`
(`terraform_code_generator.py:328-416`).  The `os.getenv` reads for project
and region are passed in as `env`. -/
def genProviderTfvars (env : OsEnv) (spec : ServiceSpec) (provider : String) : String :=
  let serviceName :=
    strReplace (strReplace (strLower (pyOr spec.name "cloud-microservice")) " " "-") "_" "-"
  let projectId := env.googleCloudProject.getD "your-gcp-project-id"
  let region := env.googleCloudRegion.getD "us-central1"
  if provider == "gcp" then
    "# Google Cloud Platform Configuration\n" ++
    "project_id = \"" ++ projectId ++ "\"\n" ++
    "region = \"" ++ region ++ "\"\n" ++
    "service_name = \"" ++ serviceName ++ "\"\n" ++
    "environment = \"dev\"\n" ++
    "\n" ++
    "# Container Configuration\n" ++
    "container_image = \"gcr.io/" ++ projectId ++ "/" ++ serviceName ++ ":latest\"\n" ++
    "container_port = 8080\n" ++
    "\n" ++
    "# Scaling Configuration\n" ++
    "min_instances = \"0\"\n" ++
    "max_instances = \"10\"\n" ++
    "container_concurrency = 80\n" ++
    "\n" ++
    "# Resource Limits\n" ++
    "cpu_limit = \"1000m\"\n" ++
    "memory_limit = \"512Mi\"\n" ++
    "cpu_request = \"100m\"\n" ++
    "memory_request = \"128Mi\"\n" ++
    "\n" ++
    "# Security\n" ++
    "allow_unauthenticated = true\n" ++
    "service_account_email = \"\"\n" ++
    "\n" ++
    "# Environment Variables\n" ++
    "environment_variables = \x7b\n" ++
    "  NODE_ENV = \"production\"\n" ++
    "  LOG_LEVEL = \"info\"\n" ++
    "\x7d\n" ++
    "\n" ++
    "# Monitoring\n" ++
    "enable_monitoring = true\n" ++
    "health_check_path = \"/health\"\n"
  else if provider == "aws" then
    "# Amazon Web Services Configuration\n" ++
    "aws_region = \"us-west-2\"\n" ++
    "service_name = \"" ++ serviceName ++ "\"\n" ++
    "environment = \"dev\"\n" ++
    "\n" ++
    "# Container Configuration\n" ++
    "container_image = \"your-account-id.dkr.ecr.us-west-2.amazonaws.com/" ++ serviceName ++ ":latest\"\n" ++
    "container_port = 8080\n" ++
    "\n" ++
    "# ECS Configuration\n" ++
    "cpu_units = 512\n" ++
    "memory_units = 1024\n" ++
    "desired_count = 1\n" ++
    "\n" ++
    "# Auto Scaling\n" ++
    "enable_autoscaling = true\n" ++
    "min_capacity = 1\n" ++
    "max_capacity = 10\n" ++
    "target_cpu_utilization = 70\n" ++
    "target_memory_utilization = 80\n" ++
    "\n" ++
    "# VPC Configuration\n" ++
    "create_vpc = true\n" ++
    "vpc_cidr = \"10.0.0.0/16\"\n" ++
    "public_subnet_cidrs = [\"10.0.1.0/24\", \"10.0.2.0/24\"]\n" ++
    "\n" ++
    "# Environment Variables\n" ++
    "environment_variables = \x7b\n" ++
    "  NODE_ENV = \"production\"\n" ++
    "  LOG_LEVEL = \"info\"\n" ++
    "\x7d\n" ++
    "\n" ++
    "# Monitoring\n" ++
    "enable_monitoring = true\n" ++
    "health_check_path = \"/health\"\n" ++
    "log_retention_days = 30\n"
  else
    "# Configuration for " ++ provider ++ "\n" ++
    "service_name = \"" ++ serviceName ++ "\"\n" ++
    "environment = \"dev\"\n"

/-! # Validator and repair loop — `src/terraform_validator.py:22-219,646-666` -/

/-- The validation report dict built at `terraform_validator.py:117-122`. -/
structure VReport where
  valid : Bool
  missing_files : List String
  content_issues : List String
  issues : List String
  deriving DecidableEq, Repr

/-- `terraform-{provider}.tfvars`. -/
def tfvarsFile (provider : String) : String :=
  "terraform-" ++ provider ++ ".tfvars"

/-- `TerraformValidator._validate_main_tf` (`terraform_validator.py:124-146`). -/
def validateMainTf (content : String) (providers : List String) : List String :=
  (if !strContains content "terraform \x7b" then
    ["main.tf: Missing terraform configuration block"] else []) ++
  (if providers.contains "gcp" && !strContains content "hashicorp/google" then
    ["main.tf: Missing Google Cloud provider configuration"] else []) ++
  (if providers.contains "aws" && !strContains content "hashicorp/aws" then
    ["main.tf: Missing AWS provider configuration"] else []) ++
  (if providers.contains "gcp" && !strContains content "module" then
    ["main.tf: Missing module blocks for GCP resources"] else []) ++
  (if providers.contains "aws" && !strContains content "module" then
    ["main.tf: Missing module blocks for AWS resources"] else [])

/-- `TerraformValidator._validate_variables_tf`
(`terraform_validator.py:148-164`). -/
def validateVariablesTf (content : String) (providers : List String) : List String :=
  let requiredVars :=
    ["service_name"] ++
    (if providers.contains "gcp" then ["project_id", "region"] else []) ++
    (if providers.contains "aws" then ["aws_region"] else [])
  requiredVars.foldl
    (fun issues v =>
      if !strContains content ("variable \"" ++ v ++ "\"") then
        issues ++ ["variables.tf: Missing required variable \x27" ++ v ++ "\x27"]
      else issues) []

/-- `TerraformValidator._validate_outputs_tf`
(`terraform_validator.py:166-176`). -/
def validateOutputsTf (content : String) (_providers : List String) : List String :=
  (if !strContains content "output" then
    ["outputs.tf: No output definitions found"] else []) ++
  (if !strContains content "service_url" then
    ["outputs.tf: Missing service_url output"] else [])

/-- `TerraformValidator.validate_terraform_files`
(`terraform_validator.py:70-122`). -/
def validateTerraformFiles (files : ArtifactSet) (providers : List String) : VReport :=
  let requiredFiles := ["main.tf", "variables.tf", "outputs.tf"]
  let missingFiles := requiredFiles.filter fun f => !afMem files f
  let contentIssues :=
    (match afLookup files "main.tf" with
     | some c => validateMainTf c providers
     | none => []) ++
    (match afLookup files "variables.tf" with
     | some c => validateVariablesTf c providers
     | none => []) ++
    (match afLookup files "outputs.tf" with
     | some c => validateOutputsTf c providers
     | none => [])
  let missingFiles := missingFiles ++
    (providers.filter fun p => !afMem files (tfvarsFile p)).map tfvarsFile
  let dockerfileExists := afMem files "Dockerfile"
  let nodejsFiles := afMem files "package.json" || afMem files "index.js"
  let pythonFiles := afMem files "requirements.txt" || afMem files "main.py"
  let goFiles := afMem files "go.mod" || afMem files "main.go"
  let missingFiles := missingFiles ++ (if !dockerfileExists then ["Dockerfile"] else [])
  let contentIssues := contentIssues ++
    (if !(nodejsFiles || pythonFiles || goFiles) then
      ["No runtime-specific application files found"] else [])
  { valid := missingFiles.isEmpty && contentIssues.isEmpty
    missing_files := missingFiles
    content_issues := contentIssues
    issues := missingFiles ++ contentIssues }

/-- `TerraformValidator._generate_missing_files`
(`terraform_validator.py:178-219`), instrumented with a count of synthesis
generator invocations (the second component, a ghost observer used by the
idempotence claim; the artifact result is the first component). -/
def generateMissingFilesC (env : OsEnv) (existingFiles : ArtifactSet)
    (missingFiles : List String) (spec : ServiceSpec) (providers : List String) :
    ArtifactSet × Nat :=
  let g : ArtifactSet × Nat := ([], 0)
  let g := if missingFiles.contains "main.tf" then
    (afInsert g.1 "main.tf" (genMainTf spec providers), g.2 + 1) else g
  let g := if missingFiles.contains "variables.tf" then
    (afInsert g.1 "variables.tf" (genVariablesTf spec providers), g.2 + 1) else g
  let g := if missingFiles.contains "outputs.tf" then
    (afInsert g.1 "outputs.tf" (genOutputsTf spec providers), g.2 + 1) else g
  let g := providers.foldl
    (fun g p =>
      if missingFiles.contains (tfvarsFile p) then
        (afInsert g.1 (tfvarsFile p) (genProviderTfvars env spec p), g.2 + 1)
      else g) g
  let g := if missingFiles.contains "Dockerfile" then
    (afInsert g.1 "Dockerfile" (genDockerfile spec), g.2 + 1) else g
  match runtimeKindOf (specRuntimeLower spec) with
  | .node =>
    let g := if !afMem existingFiles "package.json" && !afMem g.1 "package.json" then
      (afInsert g.1 "package.json" (genPackageJson spec), g.2 + 1) else g
    if !afMem existingFiles "index.js" && !afMem g.1 "index.js" then
      (afInsert g.1 "index.js" (genNodejsApp spec), g.2 + 1) else g
  | .python =>
    let g := if !afMem existingFiles "requirements.txt" && !afMem g.1 "requirements.txt" then
      (afInsert g.1 "requirements.txt" (genRequirementsTxt spec), g.2 + 1) else g
    if !afMem existingFiles "main.py" && !afMem g.1 "main.py" then
      (afInsert g.1 "main.py" (genPythonApp spec), g.2 + 1) else g
  | .other => g

/-- `TerraformValidator._fix_content_issues` (`terraform_validator.py:646-666`),
instrumented like `generateMissingFilesC`. -/
def fixContentIssuesC (files : ArtifactSet) (issues : List String)
    (spec : ServiceSpec) (providers : List String) : ArtifactSet × Nat :=
  issues.foldl
    (fun fs issue =>
      if strContains issue "main.tf" && afMem fs.1 "main.tf" then
        (afInsert fs.1 "main.tf" (genMainTf spec providers), fs.2 + 1)
      else if strContains issue "variables.tf" && afMem fs.1 "variables.tf" then
        (afInsert fs.1 "variables.tf" (genVariablesTf spec providers), fs.2 + 1)
      else if strContains issue "outputs.tf" && afMem fs.1 "outputs.tf" then
        (afInsert fs.1 "outputs.tf" (genOutputsTf spec providers), fs.2 + 1)
      else fs) (files, 0)

/-- Outcome of one `validate_and_fix` run, with two ghost observers: the
number of synthesis-generator invocations and every validation report
computed during the run (initial validation first, then one report per
repair iteration). -/
structure RunResult where
  success : Bool
  files : ArtifactSet
  synthCalls : Nat
  reports : List VReport
  deriving Repr

/-- The `for attempt in range(max_retries)` loop of
`TerraformValidator.validate_and_fix` (`terraform_validator.py:44-68`):
synthesize content for the previous report's missing files, regenerate files
named by its content issues, re-validate, and exit early on success.
`validation_results` is the report computed before the current iteration. -/
def fixLoopAux (env : OsEnv) (spec : ServiceSpec) (providers : List String) :
    Nat → ArtifactSet → VReport → RunResult
  | 0, fixedFiles, _ => ⟨false, fixedFiles, 0, []⟩
  | fuel + 1, fixedFiles, validationResults =>
    let gm := generateMissingFilesC env fixedFiles validationResults.missing_files
      spec providers
    let fixedFiles := afUpdate fixedFiles gm.1
    let fc := fixContentIssuesC fixedFiles validationResults.content_issues
      spec providers
    let fixedFiles := fc.1
    let revalidated := validateTerraformFiles fixedFiles providers
    if revalidated.valid then
      ⟨true, fixedFiles, gm.2 + fc.2, [revalidated]⟩
    else
      let r := fixLoopAux env spec providers fuel fixedFiles revalidated
      ⟨r.success, r.files, gm.2 + fc.2 + r.synthCalls, revalidated :: r.reports⟩

/-- `TerraformValidator.validate_and_fix` (`terraform_validator.py:22-68`)
with its ghost observers.  `_copy_terraform_modules` only copies module
directories on disk and never touches the artifact mapping, so it has no
counterpart here; `outputDir` is kept for signature fidelity. -/
def validateAndFixAux (env : OsEnv) (generatedFiles : ArtifactSet)
    (spec : ServiceSpec) (providers : List String) (_outputDir : String)
    (maxRetries : Nat) : RunResult :=
  let validationResults := validateTerraformFiles generatedFiles providers
  if validationResults.valid then
    ⟨true, generatedFiles, 0, [validationResults]⟩
  else
    let r := fixLoopAux env spec providers maxRetries generatedFiles validationResults
    ⟨r.success, r.files, r.synthCalls, validationResults :: r.reports⟩

/-- `TerraformValidator.validate_and_fix`: the pair the Python function
returns, `(success, fixed_files)`. -/
def validateAndFix (env : OsEnv) (generatedFiles : ArtifactSet)
    (spec : ServiceSpec) (providers : List String) (outputDir : String)
    (maxRetries : Nat) : Bool × ArtifactSet :=
  let r := validateAndFixAux env generatedFiles spec providers outputDir maxRetries
  (r.success, r.files)

/-! # Multi-agent orchestration — `src/multi_agent_generator.py`

Collaborator calls (the Claude API) are non-deterministic and fallible; they
are modelled as oracle outcomes carried by a `GenEnv` record: one outcome per
generation call and response streams, consumed in call order, for the
validation and refinement calls.  `Except.error` is a raised exception at the
call site; an exhausted stream counts as a failed call.  Scores are `Rat`
(Python floats; only order comparisons occur). -/

/-- `ValidationResult` (`multi_agent_generator.py:25-33`). -/
structure ValidationResult where
  score : Rat
  spec_compliance : Rat
  issues : List String
  critical_issues : List String
  suggestions : List String
  passed : Bool
  deriving DecidableEq, Repr

/-- `GenerationAttempt` (`multi_agent_generator.py:36-42`).
`generation_time` is wall-clock time in the source; it never influences any
control flow, and the embedding sets it to `0`. -/
structure GenerationAttempt where
  code_files : ArtifactSet
  validation : Option ValidationResult
  generation_time : Rat
  agent_version : String
  deriving DecidableEq, Repr

/-! ## Scoring-response parsing — `ValidatorAgent._parse_validation_response`
(`multi_agent_generator.py:495-537`) -/

/-- The fields `_parse_validation_response` reads from the decoded JSON
scoring object; a `none` field is an absent key (`validation_data.get`
default). -/
structure JsonScoring where
  overall_score : Option Rat
  spec_compliance : Option Rat
  issues : Option (List String)
  critical_issues : Option (List String)
  suggestions : Option (List String)

/-- The fallback result built when response parsing fails
(`multi_agent_generator.py:529-537`). -/
def parseFailureValidation : ValidationResult :=
  { score := mkRat 1 2
    spec_compliance := mkRat 1 2
    issues := ["Failed to parse validation response"]
    critical_issues := ["Validation parsing error"]
    suggestions := ["Review validation logic"]
    passed := false }

/-- The marker search of `_parse_validation_response`
(`multi_agent_generator.py:498-511`): locate the first fenced json block and
return its stripped contents. -/
def extractJsonBlock (response : String) : Option String :=
  match strFindFrom response "```json" 0 with
  | none => none
  | some startIdx =>
    let startIdx := startIdx + 7
    match strFindFrom response "```" startIdx with
    | none => none
    | some endIdx => some (strTrim (strSlice response startIdx endIdx))

/-- `ValidatorAgent._parse_validation_response`
(`multi_agent_generator.py:495-537`).  `jsonParse` is the external
`json.loads` boundary, returning `none` where the library would raise.  Note
`passed` is computed against the literal `0.8`
(`multi_agent_generator.py:521`). -/
def parseValidationResponse (jsonParse : String → Option JsonScoring)
    (response : String) : ValidationResult :=
  match extractJsonBlock response with
  | none => parseFailureValidation
  | some content =>
    match jsonParse content with
    | none => parseFailureValidation
    | some d =>
      { score := d.overall_score.getD 0
        spec_compliance := d.spec_compliance.getD 0
        issues := d.issues.getD []
        critical_issues := d.critical_issues.getD []
        suggestions := d.suggestions.getD []
        passed := decide (d.overall_score.getD 0 ≥ mkRat 8 10) }

/-! ## Orchestrator — `MultiAgentOrchestrator` (`multi_agent_generator.py:619-815`) -/

/-- The orchestrator configuration set in `__init__`
(`multi_agent_generator.py:622-628`): `quality_threshold` parameter
(default 0.8) and `max_iterations = 3`. -/
structure MultiAgentOrchestrator where
  quality_threshold : Rat := mkRat 8 10
  max_iterations : Nat := 3

/-- Oracle outcomes of the collaborator calls one `generate_with_validation`
run can make. -/
structure GenEnv where
  /-- `code_generator.generate_primary` in `_generate_code_versions`. -/
  primary : Except String ArtifactSet
  /-- `code_generator.generate_alternative(spec, "defensive")`. -/
  alternative : Except String ArtifactSet
  /-- `validator.validate` responses, in call order (phase 2 consumes one per
  surviving attempt, the refinement loop one per iteration). -/
  validations : List (Except String ValidationResult)
  /-- `code_generator.refine_code` responses, in call order. -/
  refinements : List (Except String ArtifactSet)
  /-- `code_generator.generate_primary` inside `_fallback_generation` (a
  fresh call with its own outcome). -/
  fallbackPrimary : Except String ArtifactSet

/-- `MultiAgentOrchestrator._generate_code_versions`
(`multi_agent_generator.py:675-701`): two concurrent generation calls,
failures dropped, position `0` labelled `"primary"` and position `1`
`"alternative"`. -/
def generateCodeVersions (env : GenEnv) : List GenerationAttempt :=
  (match env.primary with
   | .ok files => [⟨files, none, 0, "primary"⟩]
   | .error _ => []) ++
  (match env.alternative with
   | .ok files => [⟨files, none, 0, "alternative"⟩]
   | .error _ => [])

/-- The synthetic zero-score report substituted for a failed scoring call
(`multi_agent_generator.py:716-720`). -/
def failedValidation : ValidationResult :=
  { score := 0
    spec_compliance := 0
    issues := ["Validation failed"]
    critical_issues := ["Validation error"]
    suggestions := []
    passed := false }

/-- `MultiAgentOrchestrator._validate_code_versions`
(`multi_agent_generator.py:703-727`): each attempt's validation is the
corresponding response, a failed (or missing) response becoming
`failedValidation`. -/
def validateCodeVersions : List GenerationAttempt →
    List (Except String ValidationResult) → List GenerationAttempt
  | [], _ => []
  | a :: as, [] =>
    { a with validation := some failedValidation } :: validateCodeVersions as []
  | a :: as, r :: rs =>
    let v := match r with
      | .ok v => v
      | .error _ => failedValidation
    { a with validation := some v } :: validateCodeVersions as rs

/-- The sort key of `_select_best_attempt`
(`multi_agent_generator.py:735`): `a.validation.score if a.validation else 0`. -/
def attemptKey (a : GenerationAttempt) : Rat :=
  match a.validation with
  | some v => v.score
  | none => 0

/-- Insert into a list already sorted by `attemptKey` descending, after every
element with a strictly greater key and before every element with a smaller
or equal key. -/
def insertByScoreDesc (x : GenerationAttempt) :
    List GenerationAttempt → List GenerationAttempt
  | [] => [x]
  | y :: ys =>
    if attemptKey y > attemptKey x then y :: insertByScoreDesc x ys
    else x :: y :: ys

/-- `attempts.sort(key=..., reverse=True)` (`multi_agent_generator.py:735`):
Python's sort is stable, and with `reverse=True` equal keys keep their
original relative order, so the sorted list is computed by stable descending
insertion. -/
def sortByScoreDesc : List GenerationAttempt → List GenerationAttempt
  | [] => []
  | x :: xs => insertByScoreDesc x (sortByScoreDesc xs)

/-- `MultiAgentOrchestrator._select_best_attempt`
(`multi_agent_generator.py:729-740`): sort by score descending, take the
head.  The Python function raises on an empty list; that is the `none`
case. -/
def selectBestAttempt (attempts : List GenerationAttempt) :
    Option GenerationAttempt :=
  (sortByScoreDesc attempts).head?

/-- The earliest attempt attaining the maximal key — the spec's wording for
selection ("ordered by `overall_score` descending; ties broken by original
generation order (stable sort); the top candidate is chosen", spec §4.4).
Comparison definition for the refinement claim. -/
def selectBestSpec : List GenerationAttempt → Option GenerationAttempt
  | [] => none
  | x :: xs =>
    match selectBestSpec xs with
    | none => some x
    | some b => if attemptKey b > attemptKey x then some b else some x

/-- `MultiAgentOrchestrator._refinement_loop`
(`multi_agent_generator.py:742-784`) on the state
`(code_files, validation, agent_version)`.  `fuel` is the remaining
iteration budget, `idx` the number of iterations already run (for the
version label); `refs`/`vals` are the remaining refinement and validation
oracle responses.  A failed call (or exhausted oracle) breaks the loop,
keeping the current attempt. -/
def refinementLoop (threshold : Rat) :
    Nat → Nat → List (Except String ArtifactSet) →
    List (Except String ValidationResult) →
    ArtifactSet × ValidationResult × String →
    ArtifactSet × ValidationResult × String
  | 0, _, _, _, cur => cur
  | fuel + 1, idx, refs, vals, cur =>
    if cur.2.1.score ≥ threshold then cur
    else
      let issuesToFix := cur.2.1.critical_issues ++ cur.2.1.issues.take 3
      if issuesToFix.isEmpty then cur
      else
        match refs with
        | [] => cur
        | .error _ :: _ => cur
        | .ok refined :: refs' =>
          match vals with
          | [] => cur
          | .error _ :: _ => cur
          | .ok rv :: vals' =>
            refinementLoop threshold fuel (idx + 1) refs' vals'
              (refined, rv, cur.2.2 ++ "_refined_" ++ toString (idx + 1))

/-- `MultiAgentOrchestrator._fallback_generation`
(`multi_agent_generator.py:787-815`): one fresh synchronous generation call;
on success a synthesized fixed passing report (score 0.7), on failure an
error artifact set with a failing zero-score report.  Its own `except`
catches everything, so it never raises. -/
def fallbackGeneration (env : GenEnv) : ArtifactSet × ValidationResult :=
  match env.fallbackPrimary with
  | .ok codeFiles =>
    (codeFiles,
     { score := mkRat 7 10
       spec_compliance := mkRat 7 10
       issues := ["Generated with fallback mode"]
       critical_issues := []
       suggestions := ["Consider reviewing generated code"]
       passed := true })
  | .error e =>
    ([("generation_error.txt", "Multi-agent generation failed: " ++ e)],
     { score := 0
       spec_compliance := 0
       issues := ["Generation failed"]
       critical_issues := ["System error"]
       suggestions := []
       passed := false })

/-- The `try` body of `generate_with_validation`
(`multi_agent_generator.py:647-670`): generate, score, select, refine.  The
`.error` case is the exception `_select_best_attempt` raises on an empty
attempt list — the only uncaught raise inside the `try` (oracle failures are
handled where they occur). -/
def generateWithValidationBody (o : MultiAgentOrchestrator) (env : GenEnv) :
    Except String (ArtifactSet × ValidationResult) :=
  let attempts := generateCodeVersions env
  let validated := validateCodeVersions attempts env.validations
  match selectBestAttempt validated with
  | none => .error "No valid code attempts to select from"
  | some best =>
    let bv := best.validation.getD failedValidation
    if !bv.passed then
      let r := refinementLoop o.quality_threshold o.max_iterations 0
        env.refinements (env.validations.drop attempts.length)
        (best.code_files, bv, best.agent_version)
      .ok (r.1, r.2.1)
    else
      .ok (best.code_files, bv)

/-- `MultiAgentOrchestrator.generate_with_validation`
(`multi_agent_generator.py:642-673`).  The result is `Except`-valued so that
a raise that escaped to the caller would be visible as `.error`; the
function's own `except` clause routes every failure of the body to
`_fallback_generation`, which itself never raises. -/
def generateWithValidation (o : MultiAgentOrchestrator) (env : GenEnv) :
    Except String (ArtifactSet × ValidationResult) :=
  match generateWithValidationBody o env with
  | .ok r => .ok r
  | .error _ => .ok (fallbackGeneration env)

/-! # Concrete evaluation fixtures

Closed inputs used by witnesses and counterexamples. -/

/-- An `os.getenv` environment with neither variable set. -/
def defaultOsEnv : OsEnv := ⟨none, none⟩

/-- The demo specification document of spec §8, parsed. -/
def nodeDemoSpec : ServiceSpec :=
  specParse "# Service Name: Demo\nDescription: x\nRuntime: Node.js 20\n\n## Endpoints\n\n### GET /health\n- Description: ok\n"

/-- A specification document whose runtime is Go (parsed from a document, so
it is a value the real parser produces). -/
def goDemoSpec : ServiceSpec := specParse "Runtime: Go\n"

/-- A small artifact set that already passes every validator check for the
single target kind `gcp`. -/
def tinyValidGcp : ArtifactSet :=
  [("main.tf", "terraform \x7b hashicorp/google module"),
   ("variables.tf",
    "variable \"service_name\" variable \"project_id\" variable \"region\""),
   ("outputs.tf", "output \"service_url\""),
   ("terraform-gcp.tfvars", ""),
   ("Dockerfile", ""),
   ("package.json", "")]

/-- A specification text with two `### M` model blocks. -/
def dupModelsInput : String := "## Models\n### M\n- a: int\n### M\n- b: int\n"

/-- An orchestrator constructed with the non-default quality threshold 0.5. -/
def halfThresholdOrchestrator : MultiAgentOrchestrator :=
  { quality_threshold := mkRat 1 2, max_iterations := 3 }

/-- A concrete `json.loads` oracle: decodes the two-character content
`"{}"` to a scoring object with `overall_score` 0.6. -/
def jsonParse60 : String → Option JsonScoring := fun s =>
  if s == "\x7b\x7d" then
    some { overall_score := some (mkRat 6 10), spec_compliance := none,
           issues := none, critical_issues := none, suggestions := none }
  else none

/-- A scoring response whose fenced json block decodes via `jsonParse60`. -/
def response60 : String := "```json\x7b\x7d```"

/-- A validation result with the given overall score and derived fields as
the scoring parser builds them. -/
def mkScore (q : Rat) : ValidationResult :=
  { score := q, spec_compliance := q, issues := [], critical_issues := [],
    suggestions := [], passed := decide (q ≥ mkRat 8 10) }

/-- Two scored attempts, generation order: scores 0.6 then 0.9. -/
def attemptsSixNine : List GenerationAttempt :=
  [⟨[("index.js", "// a")], some (mkScore (mkRat 6 10)), 0, "primary"⟩,
   ⟨[("index.js", "// b")], some (mkScore (mkRat 9 10)), 0, "alternative"⟩]

/-- An oracle environment where both candidate generations and the fallback
generation call fail: the total-pipeline-failure case. -/
def envTotalFail : GenEnv :=
  ⟨.error "api down", .error "api down", [], [], .error "api down"⟩

/-- An oracle environment where both candidate generations fail but the
fallback generation call succeeds. -/
def envFallbackOk : GenEnv :=
  ⟨.error "timeout", .error "timeout", [], [], .ok [("index.js", "// app")]⟩

/-! # Theorems -/

/-! ## Helper lemmas on the string and list primitives -/

theorem listContainsSub_append_right {needle l2 : List Char} (l1 : List Char)
    (h : listContainsSub needle l2 = true) :
    listContainsSub needle (l1 ++ l2) = true := by
  induction l1 with
  | nil => simpa using h
  | cons c cs ih =>
    simp only [List.cons_append, listContainsSub, List.append_eq]
    rw [ih]
    simp

/-! ## C5 — parser totality, determinism and empty-input defaults -/

/-- C5: the specification parser is a total function of the input string (its
recursion is structural, so `specParse` is defined on every string and in
particular never raises), applying it twice to the same string yields
identical documents, and the empty string parses to the document with empty
name and description, the default runtime `"Node.js 20"`, and no endpoints,
models or optional sections. -/
theorem c5_parser_total_deterministic :
    (∀ s : String, specParse s = specParse s) ∧
    specParse "" =
      { name := "", description := "", runtime := "Node.js 20",
        endpoints := [], models := [], business_logic := none,
        database := none, deployment := none } :=
  ⟨fun _ => rfl, by decide⟩

/-! ## C7 — the shape of `models` past the parser boundary -/

theorem dictSet_keys_mem {m : List (String × List String)} {k a : String}
    {v : List String} :
    a ∈ (dictSet m k v).map Prod.fst ↔ a ∈ m.map Prod.fst ∨ a = k := by
  induction m with
  | nil => simp [dictSet]
  | cons hd tl ih =>
    obtain ⟨k', v'⟩ := hd
    by_cases h : k' = k
    · subst h
      simp [dictSet]
      tauto
    · simp [dictSet, h, ih]
      tauto

theorem dictSet_keys_nodup {m : List (String × List String)} {k : String}
    {v : List String} (h : (m.map Prod.fst).Nodup) :
    ((dictSet m k v).map Prod.fst).Nodup := by
  induction m with
  | nil => simp [dictSet]
  | cons hd tl ih =>
    obtain ⟨k', v'⟩ := hd
    simp only [List.map_cons, List.nodup_cons] at h
    by_cases hk : k' = k
    · subst hk
      simp only [dictSet, beq_self_eq_true, if_true, List.map_cons,
        List.nodup_cons]
      exact ⟨h.1, h.2⟩
    · simp only [dictSet, beq_iff_eq, hk, if_false, List.map_cons,
        List.nodup_cons]
      refine ⟨fun hmem => ?_, ih h.2⟩
      rcases dictSet_keys_mem.mp hmem with hin | heq
      · exact h.1 hin
      · exact hk heq

theorem dictAppendField_keys {m : List (String × List String)} {k f : String} :
    (dictAppendField m k f).map Prod.fst = m.map Prod.fst := by
  induction m with
  | nil => simp [dictAppendField]
  | cons hd tl ih =>
    obtain ⟨k', v'⟩ := hd
    by_cases hk : k' = k
    · subst hk
      simp [dictAppendField]
    · simp [dictAppendField, hk, ih]

theorem dictAppendField_keys_nodup {m : List (String × List String)}
    {k f : String} (h : (m.map Prod.fst).Nodup) :
    ((dictAppendField m k f).map Prod.fst).Nodup := by
  rw [dictAppendField_keys]
  exact h

set_option maxHeartbeats 1600000 in
theorem parseLine_models_keys_nodup (st : PState) (line : String)
    (h : (st.models.map Prod.fst).Nodup) :
    (((parseLine st line).models).map Prod.fst).Nodup := by
  unfold parseLine
  lift_lets
  extract_lets l mp pr ep fv upd
  by_cases h1 : strStartsWith l "# Service Name:" = true
  · rw [if_pos h1]; exact h
  rw [if_neg h1]
  by_cases h2 : strStartsWith l "Description:" = true
  · rw [if_pos h2]; exact h
  rw [if_neg h2]
  by_cases h3 : strStartsWith l "Runtime:" = true
  · rw [if_pos h3]; exact h
  rw [if_neg h3]
  by_cases h4 : (l == "## Endpoints") = true
  · rw [if_pos h4]; exact h
  rw [if_neg h4]
  by_cases h5 : (l == "## Models") = true
  · rw [if_pos h5]; exact h
  rw [if_neg h5]
  by_cases h6 : (l == "## Business Logic") = true
  · rw [if_pos h6]; exact h
  rw [if_neg h6]
  by_cases h7 : (l == "## Database") = true
  · rw [if_pos h7]; exact h
  rw [if_neg h7]
  by_cases h8 : (l == "## Deployment") = true
  · rw [if_pos h8]; exact h
  rw [if_neg h8]
  by_cases h9 : (st.currentSection == some Section'.endpoints && strStartsWith l "### ") = true
  · rw [if_pos h9]; exact h
  rw [if_neg h9]
  by_cases h10 : (st.currentSection == some Section'.endpoints && st.hasCurrentEndpoint &&
      strStartsWith l "- ") = true
  · rw [if_pos h10]; exact h
  rw [if_neg h10]
  by_cases h11 : (st.currentSection == some Section'.models && strStartsWith l "### ") = true
  · rw [if_pos h11]; exact dictSet_keys_nodup h
  rw [if_neg h11]
  by_cases h12 : (st.currentSection == some Section'.models && optStrTruthy st.currentModel &&
      strStartsWith l "- ") = true
  · rw [if_pos h12]; exact dictAppendField_keys_nodup h
  rw [if_neg h12]
  exact h

theorem parseFold_models_keys_nodup (lines : List String) (st : PState)
    (h : (st.models.map Prod.fst).Nodup) :
    (((lines.foldl parseLine st).models).map Prod.fst).Nodup := by
  induction lines generalizing st with
  | nil => exact h
  | cons l ls ih =>
    exact ih (parseLine st l) (parseLine_models_keys_nodup st l h)

/-- C7 counterexample: on the concrete input with two `### M` model blocks,
the document `SpecParser.parse` returns does not hold its models in the
canonical ordered-sequence-of-records shape — the canonical sequence has two
records while the parser's mapping has collapsed them into one. -/
theorem c7_models_shape_counterexample :
    (specParse dupModelsInput).models ≠ cmodelPairs (canonicalModels dupModelsInput) := by
  decide

/-- C7 amended: for every input string, `SpecParser.parse` holds `models` as
an insertion-ordered mapping from model name to field list — every model name
occurs at most once — and a repeated `### name` header resets the existing
entry's fields to those of the later block rather than appending a second
record, as the concrete two-block input shows; the canonical
ordered-sequence-of-records shape of spec §3 is not what this parser
produces. -/
theorem c7_models_mapping_amended :
    (∀ s : String, (((specParse s).models).map Prod.fst).Nodup) ∧
    (specParse dupModelsInput).models = [("M", ["b: int"])] := by
  constructor
  · intro s
    exact parseFold_models_keys_nodup _ _ (by simp)
  · decide

/-! ## C6 — document-level validation errors -/

theorem endpointErrs_length (eps : List Endpoint) :
    (eps.flatMap fun ep =>
      (if ep.method = "" then ["HTTP method is required"] else []) ++
      (if ep.path = "" then ["Path is required"] else [])).length =
    (eps.countP fun e => e.method == "") + (eps.countP fun e => e.path == "") := by
  induction eps with
  | nil => simp
  | cons e es ih =>
    by_cases hm : e.method = "" <;> by_cases hp : e.path = "" <;>
      simp [List.countP_cons, hm, hp, ih] <;> omega

theorem endpointErrs_count_method (eps : List Endpoint) :
    (eps.flatMap fun ep =>
      (if ep.method = "" then ["HTTP method is required"] else []) ++
      (if ep.path = "" then ["Path is required"] else [])).count
        "HTTP method is required" =
    eps.countP fun e => e.method == "" := by
  induction eps with
  | nil => simp
  | cons e es ih =>
    by_cases hm : e.method = "" <;> by_cases hp : e.path = "" <;>
      simp [List.countP_cons, List.count_append, List.count_cons, hm, hp, ih]

theorem endpointErrs_count_path (eps : List Endpoint) :
    (eps.flatMap fun ep =>
      (if ep.method = "" then ["HTTP method is required"] else []) ++
      (if ep.path = "" then ["Path is required"] else [])).count
        "Path is required" =
    eps.countP fun e => e.path == "" := by
  induction eps with
  | nil => simp
  | cons e es ih =>
    by_cases hm : e.method = "" <;> by_cases hp : e.path = "" <;>
      simp [List.countP_cons, List.count_append, List.count_cons, hm, hp, ih]

theorem endpointErrs_nil_of_valid (eps : List Endpoint)
    (h : ∀ e ∈ eps, e.method ≠ "" ∧ e.path ≠ "") :
    (eps.flatMap fun ep =>
      (if ep.method = "" then ["HTTP method is required"] else []) ++
      (if ep.path = "" then ["Path is required"] else [])) = [] := by
  induction eps with
  | nil => simp
  | cons e es ih =>
    obtain ⟨hm, hp⟩ := h e (List.mem_cons_self e es)
    simp [hm, hp, ih fun e' he' => h e' (List.mem_cons_of_mem e he')]

/-- C6: document validation produces its errors one per defect, in order —
an empty name contributes exactly one error, an empty endpoint list exactly
one, and each endpoint contributes one error mentioning the HTTP method when
its `method` is empty plus one error mentioning the path when its `path` is
empty (so a fully empty endpoint yields exactly two strings); a document
with a name, at least one endpoint and no empty endpoint field validates to
the empty sequence.  The total length equals the sum of the per-defect
contributions. -/
theorem c6_validate_errors (doc : ServiceSpec) :
    (validateSpecDoc doc).length =
      ((if doc.name = "" then 1 else 0) + (if doc.endpoints = [] then 1 else 0) +
       (doc.endpoints.countP fun e => e.method == "") +
       (doc.endpoints.countP fun e => e.path == "")) ∧
    (validateSpecDoc doc).count "HTTP method is required" =
      (doc.endpoints.countP fun e => e.method == "") ∧
    (validateSpecDoc doc).count "Path is required" =
      (doc.endpoints.countP fun e => e.path == "") ∧
    (doc.name ≠ "" → doc.endpoints ≠ [] →
      (∀ e ∈ doc.endpoints, e.method ≠ "" ∧ e.path ≠ "") →
      validateSpecDoc doc = []) := by
  refine ⟨?_, ?_, ?_, ?_⟩
  · simp only [validateSpecDoc, List.length_append, endpointErrs_length]
    by_cases hn : doc.name = "" <;> by_cases he : doc.endpoints = [] <;>
      (simp [hn, he]; try omega)
  · simp only [validateSpecDoc, List.count_append, endpointErrs_count_method]
    by_cases hn : doc.name = "" <;> by_cases he : doc.endpoints = [] <;>
      simp [hn, he, List.count_cons, List.count_nil]
  · simp only [validateSpecDoc, List.count_append, endpointErrs_count_path]
    by_cases hn : doc.name = "" <;> by_cases he : doc.endpoints = [] <;>
      simp [hn, he, List.count_cons, List.count_nil]
  · intro hn he hve
    simp [validateSpecDoc, hn, he, endpointErrs_nil_of_valid doc.endpoints hve]

/-- C6 witness: the theorem evaluated at the parsed demo document (no
errors) and at a document holding one fully empty endpoint (exactly the two
field errors). -/
theorem c6_validate_errors_witness :
    validateSpecDoc nodeDemoSpec = [] ∧
    (validateSpecDoc
      { name := "Test API", description := "A test service",
        runtime := "Node.js 20",
        endpoints := [{ method := "", path := "", description := "Invalid endpoint",
                        input := none, output := none, auth := "None" }],
        models := [], business_logic := none, database := none,
        deployment := none }).length = 2 := by
  constructor
  · exact (c6_validate_errors nodeDemoSpec).2.2.2 (by decide) (by decide) (by decide)
  · rw [(c6_validate_errors _).1]
    decide

/-! ## C3 — deterministic best-attempt selection -/

theorem selectBestSpec_eq_none {l : List GenerationAttempt}
    (h : selectBestSpec l = none) : l = [] := by
  cases l with
  | nil => rfl
  | cons x xs =>
    exfalso
    simp only [selectBestSpec] at h
    rcases hsel : selectBestSpec xs with _ | b <;> rw [hsel] at h
    · exact Option.noConfusion h
    · by_cases hgt : attemptKey b > attemptKey x <;> simp [hgt] at h

theorem sortByScoreDesc_head (l : List GenerationAttempt) :
    (sortByScoreDesc l).head? = selectBestSpec l := by
  induction l with
  | nil => rfl
  | cons x xs ih =>
    simp only [sortByScoreDesc, selectBestSpec]
    rcases h : sortByScoreDesc xs with _ | ⟨y, ys⟩
    · rw [h] at ih
      simp only [List.head?_nil] at ih
      rw [← ih]
      simp [insertByScoreDesc]
    · rw [h] at ih
      simp only [List.head?_cons] at ih
      rw [← ih]
      by_cases hgt : attemptKey y > attemptKey x <;>
        simp [insertByScoreDesc, hgt]

theorem selectBestSpec_mem : ∀ {l : List GenerationAttempt}
    {a : GenerationAttempt}, selectBestSpec l = some a → a ∈ l := by
  intro l
  induction l with
  | nil => intro a h; exact Option.noConfusion h
  | cons x xs ih =>
    intro a h
    simp only [selectBestSpec] at h
    rcases hsel : selectBestSpec xs with _ | b0 <;> rw [hsel] at h <;>
      dsimp only at h
    · simp only [Option.some.injEq] at h
      exact h ▸ List.mem_cons_self x xs
    · by_cases hgt : attemptKey b0 > attemptKey x
      · rw [if_pos hgt] at h
        simp only [Option.some.injEq] at h
        exact List.mem_cons_of_mem x (ih (hsel.trans (congrArg some h)))
      · rw [if_neg hgt] at h
        simp only [Option.some.injEq] at h
        exact h ▸ List.mem_cons_self x xs

theorem selectBestSpec_max : ∀ {l : List GenerationAttempt}
    {a : GenerationAttempt}, selectBestSpec l = some a →
    ∀ b ∈ l, attemptKey b ≤ attemptKey a := by
  intro l
  induction l with
  | nil => intro a h; exact Option.noConfusion h
  | cons x xs ih =>
    intro a h b hb
    simp only [selectBestSpec] at h
    rcases hsel : selectBestSpec xs with _ | b0 <;> rw [hsel] at h <;>
      dsimp only at h
    · simp only [Option.some.injEq] at h
      subst h
      have hxs : xs = [] := selectBestSpec_eq_none hsel
      subst hxs
      simp only [List.mem_singleton] at hb
      subst hb
      exact le_refl _
    · by_cases hgt : attemptKey b0 > attemptKey x
      · rw [if_pos hgt] at h
        simp only [Option.some.injEq] at h
        subst h
        rcases List.mem_cons.mp hb with rfl | hbxs
        · exact le_of_lt hgt
        · exact ih hsel b hbxs
      · rw [if_neg hgt] at h
        simp only [Option.some.injEq] at h
        subst h
        rcases List.mem_cons.mp hb with rfl | hbxs
        · exact le_refl _
        · exact le_trans (ih hsel b hbxs) (le_of_not_lt hgt)

theorem selectBestSpec_first : ∀ {l : List GenerationAttempt}
    {a : GenerationAttempt}, selectBestSpec l = some a →
    ∃ i, ∃ hi : i < l.length, l.get ⟨i, hi⟩ = a ∧
      ∀ b ∈ l.take i, attemptKey b < attemptKey a := by
  intro l
  induction l with
  | nil => intro a h; exact Option.noConfusion h
  | cons x xs ih =>
    intro a h
    simp only [selectBestSpec] at h
    rcases hsel : selectBestSpec xs with _ | b0 <;> rw [hsel] at h <;>
      dsimp only at h
    · simp only [Option.some.injEq] at h
      exact ⟨0, by simp, by simpa using h, by simp⟩
    · by_cases hgt : attemptKey b0 > attemptKey x
      · rw [if_pos hgt] at h
        simp only [Option.some.injEq] at h
        subst h
        obtain ⟨i, hi, hget, hbefore⟩ := ih hsel
        refine ⟨i + 1, by simpa using hi, by simpa using hget, ?_⟩
        intro b hb
        simp only [List.take_succ_cons, List.mem_cons] at hb
        rcases hb with rfl | hb
        · exact hgt
        · exact hbefore b hb
      · rw [if_neg hgt] at h
        simp only [Option.some.injEq] at h
        subst h
        exact ⟨0, by simp, by simp, by simp⟩

/-- C3: on every non-empty list of scored generation attempts,
`_select_best_attempt` returns an attempt of the list whose key (the
attempt's `overall_score`) is maximal, and it is the earliest such attempt
in the original generation order: every attempt strictly before it in the
list has a strictly smaller score. -/
theorem c3_selection_determinism (attempts : List GenerationAttempt)
    (hne : attempts ≠ []) :
    ∃ a, selectBestAttempt attempts = some a ∧ a ∈ attempts ∧
      (∀ b ∈ attempts, attemptKey b ≤ attemptKey a) ∧
      ∃ i, ∃ hi : i < attempts.length, attempts.get ⟨i, hi⟩ = a ∧
        ∀ b ∈ attempts.take i, attemptKey b < attemptKey a := by
  have heq : selectBestAttempt attempts = selectBestSpec attempts :=
    sortByScoreDesc_head attempts
  rcases hsel : selectBestSpec attempts with _ | a
  · exact absurd (selectBestSpec_eq_none hsel) hne
  · exact ⟨a, heq.trans hsel, selectBestSpec_mem hsel, selectBestSpec_max hsel,
      selectBestSpec_first hsel⟩

/-- C3 witness: the theorem applied to the concrete two-attempt list with
scores 0.6 and 0.9 (and, concretely, selection picks the 0.9 attempt). -/
theorem c3_selection_determinism_witness :
    (∃ a, selectBestAttempt attemptsSixNine = some a ∧ a ∈ attemptsSixNine ∧
      (∀ b ∈ attemptsSixNine, attemptKey b ≤ attemptKey a) ∧
      ∃ i, ∃ hi : i < attemptsSixNine.length, attemptsSixNine.get ⟨i, hi⟩ = a ∧
        ∀ b ∈ attemptsSixNine.take i, attemptKey b < attemptKey a) ∧
    selectBestAttempt attemptsSixNine = some
      ⟨[("index.js", "// b")], some (mkScore (mkRat 9 10)), 0, "alternative"⟩ :=
  ⟨c3_selection_determinism attemptsSixNine (by decide), by decide⟩

/-! ## C4 — `passed` versus the configured quality threshold -/

/-- C4 counterexample: construct the orchestrator with the non-default
quality threshold 0.5 and parse a scoring response whose `overall_score` is
0.6.  The claim says `passed` tracks the configured threshold, so it would
be `true` (0.6 ≥ 0.5); the parser hard-codes 0.8, so `passed` is `false`. -/
theorem c4_threshold_counterexample :
    ¬ ((parseValidationResponse jsonParse60 response60).passed =
        decide (halfThresholdOrchestrator.quality_threshold ≤
          (parseValidationResponse jsonParse60 response60).score)) := by
  decide

/-- C4 amended: for every `json.loads` boundary and every scoring response,
the `passed` flag of the parsed `ValidationResult` equals
`overall_score >= 0.8` with the literal constant 0.8 — on the parse-failure
path as well (score 0.5, `passed` false) — independent of the orchestrator's
configured `quality_threshold`, which `_parse_validation_response` never
sees; the two agree only when the orchestrator keeps the default 0.8. -/
theorem c4_passed_amended
    (jsonParse : String → Option JsonScoring) (response : String) :
    (parseValidationResponse jsonParse response).passed =
      decide (mkRat 8 10 ≤ (parseValidationResponse jsonParse response).score) := by
  unfold parseValidationResponse
  rcases extractJsonBlock response with _ | content
  · rfl
  · dsimp only
    rcases jsonParse content with _ | d
    · rfl
    · rfl

/-! ## C8 — total-failure behavior of the orchestration -/

/-- C8 counterexample: in the total-pipeline-failure case (both candidate
generations fail and the fallback generation call fails too), the claim
requires a hard failure to propagate to the top-level caller; instead
`generate_with_validation` returns normally — `.ok`, never `.error`, in the
embedding where an uncaught raise would be `.error` — carrying an error
artifact set and a failing zero-score report (`passed = false`). -/
theorem c8_total_failure_counterexample :
    generateWithValidation {} envTotalFail =
      .ok ([("generation_error.txt", "Multi-agent generation failed: api down")],
        { score := 0, spec_compliance := 0, issues := ["Generation failed"],
          critical_issues := ["System error"], suggestions := [],
          passed := false }) := by
  rfl

/-- C8 amended: if every candidate generation fails, `generate_with_validation`
falls back to one synchronous generation call; when that call succeeds it
returns the call's files with the synthesized fixed passing score report
(score 0.7, `passed = true`), and in every case — the total pipeline failure
included — the function returns normally (`.ok`), the total-failure outcome
being an error artifact set with a failing report rather than a propagated
exception. -/
theorem c8_fallback_amended :
    (∀ (o : MultiAgentOrchestrator) (env : GenEnv) (e1 e2 : String)
      (fallbackFiles : ArtifactSet),
      env.primary = .error e1 → env.alternative = .error e2 →
      env.fallbackPrimary = .ok fallbackFiles →
      generateWithValidation o env =
        .ok (fallbackFiles,
          { score := mkRat 7 10, spec_compliance := mkRat 7 10,
            issues := ["Generated with fallback mode"], critical_issues := [],
            suggestions := ["Consider reviewing generated code"],
            passed := true })) ∧
    (∀ (o : MultiAgentOrchestrator) (env : GenEnv),
      ∃ r, generateWithValidation o env = .ok r) := by
  constructor
  · intro o env e1 e2 fallbackFiles h1 h2 h3
    unfold generateWithValidation generateWithValidationBody generateCodeVersions
    rw [h1, h2]
    dsimp only [List.nil_append, validateCodeVersions, selectBestAttempt,
      sortByScoreDesc, List.head?]
    unfold fallbackGeneration
    rw [h3]
  · intro o env
    unfold generateWithValidation
    rcases generateWithValidationBody o env with _ | r
    · exact ⟨fallbackGeneration env, rfl⟩
    · exact ⟨r, rfl⟩

/-- C8 witness: the amended theorem applied to the concrete environment where
both candidate generations time out and the fallback generation call
returns one file. -/
theorem c8_fallback_amended_witness :
    generateWithValidation {} envFallbackOk =
      .ok ([("index.js", "// app")],
        { score := mkRat 7 10, spec_compliance := mkRat 7 10,
          issues := ["Generated with fallback mode"], critical_issues := [],
          suggestions := ["Consider reviewing generated code"],
          passed := true }) :=
  c8_fallback_amended.1 {} envFallbackOk "timeout" "timeout"
    [("index.js", "// app")] rfl rfl rfl

/-! ## C2 / C9 — repair-loop contract and idempotence -/

theorem fixLoopAux_success_iff (env : OsEnv) (spec : ServiceSpec)
    (prov : List String) : ∀ (fuel : Nat) (fs : ArtifactSet) (vr : VReport),
    vr = validateTerraformFiles fs prov → vr.valid = false →
    (fixLoopAux env spec prov fuel fs vr).success =
      (validateTerraformFiles (fixLoopAux env spec prov fuel fs vr).files prov).valid := by
  intro fuel
  induction fuel with
  | zero =>
    intro fs vr hvr hinvalid
    simp only [fixLoopAux]
    rw [← hvr, hinvalid]
  | succ n ih =>
    intro fs vr hvr hinvalid
    simp only [fixLoopAux]
    by_cases hv : (validateTerraformFiles
        (fixContentIssuesC
          (afUpdate fs (generateMissingFilesC env fs vr.missing_files spec prov).1)
          vr.content_issues spec prov).1 prov).valid = true
    · rw [if_pos hv]
      exact hv.symm
    · rw [if_neg hv]
      exact ih _ _ rfl (Bool.not_eq_true _ ▸ hv)

theorem fixLoopAux_extra_fuel (env : OsEnv) (spec : ServiceSpec)
    (prov : List String) : ∀ (fuel : Nat) (fs : ArtifactSet) (vr : VReport),
    (fixLoopAux env spec prov fuel fs vr).success = true →
    fixLoopAux env spec prov (fuel + 1) fs vr =
      fixLoopAux env spec prov fuel fs vr := by
  intro fuel
  induction fuel with
  | zero =>
    intro fs vr h
    exact absurd h (by simp [fixLoopAux])
  | succ n ih =>
    intro fs vr h
    rw [fixLoopAux] at h
    dsimp only at h
    conv_lhs => rw [fixLoopAux]
    conv_rhs => rw [fixLoopAux]
    dsimp only
    by_cases hv : (validateTerraformFiles
        (fixContentIssuesC
          (afUpdate fs (generateMissingFilesC env fs vr.missing_files spec prov).1)
          vr.content_issues spec prov).1 prov).valid = true
    · rw [if_pos hv]
      try rw [if_pos hv]
    · rw [if_neg hv] at h
      dsimp only at h
      rw [if_neg hv]
      try rw [if_neg hv]
      rw [ih _ _ h]

/-- C2: `validate_and_fix` reports success exactly when the artifact set it
returns passes validation — it exits the repair loop with
`(true, fixed_artifacts)` the moment a (re-)validation reports valid, and
when the budget is exhausted without success it returns `(false,
last_artifacts)`; the final, possibly still-invalid artifact set is always
the returned value (the embedding is a total function: no input raises), and
a successful run is unchanged by granting one more retry — the extra budget
is never consumed. -/
theorem c2_retry_exhaustion_contract (env : OsEnv) (files : ArtifactSet)
    (spec : ServiceSpec) (prov : List String) (dir : String) (n : Nat) :
    ((validateAndFix env files spec prov dir n).1 =
      (validateTerraformFiles (validateAndFix env files spec prov dir n).2 prov).valid) ∧
    ((validateAndFix env files spec prov dir n).1 = true →
      validateAndFix env files spec prov dir (n + 1) =
        validateAndFix env files spec prov dir n) := by
  by_cases h0 : (validateTerraformFiles files prov).valid = true
  · constructor
    · simp only [validateAndFix, validateAndFixAux, h0, if_true]
    · intro _
      simp only [validateAndFix, validateAndFixAux, h0, if_true]
  · have hfalse : (validateTerraformFiles files prov).valid = false :=
      Bool.not_eq_true _ ▸ h0
    constructor
    · simp only [validateAndFix, validateAndFixAux, hfalse, Bool.false_eq_true,
        if_false]
      exact fixLoopAux_success_iff env spec prov n files _ rfl hfalse
    · intro hsucc
      simp only [validateAndFix, validateAndFixAux, hfalse, Bool.false_eq_true,
        if_false] at hsucc ⊢
      rw [fixLoopAux_extra_fuel env spec prov n files _ hsucc]

/-- C2 witness: the contract evaluated at the already-valid concrete artifact
set (budget 0): success equals the returned set's validity, and one more
retry changes nothing. -/
theorem c2_retry_exhaustion_contract_witness :
    ((validateAndFix defaultOsEnv tinyValidGcp nodeDemoSpec ["gcp"] "out" 0).1 =
      (validateTerraformFiles
        (validateAndFix defaultOsEnv tinyValidGcp nodeDemoSpec ["gcp"] "out" 0).2
        ["gcp"]).valid) ∧
    validateAndFix defaultOsEnv tinyValidGcp nodeDemoSpec ["gcp"] "out" 1 =
      validateAndFix defaultOsEnv tinyValidGcp nodeDemoSpec ["gcp"] "out" 0 :=
  ⟨(c2_retry_exhaustion_contract defaultOsEnv tinyValidGcp nodeDemoSpec
      ["gcp"] "out" 0).1,
   (c2_retry_exhaustion_contract defaultOsEnv tinyValidGcp nodeDemoSpec
      ["gcp"] "out" 0).2 (by decide)⟩

/-- C9: on an artifact set that already validates for the given target
kinds, `validate_and_fix` returns `(true, artifacts)` with the artifact set
unchanged — the very value passed in — and the synthesis-call counter stays
at zero: no generator is invoked. -/
theorem c9_repair_idempotent (env : OsEnv) (files : ArtifactSet)
    (spec : ServiceSpec) (prov : List String) (dir : String) (n : Nat)
    (h : (validateTerraformFiles files prov).valid = true) :
    validateAndFix env files spec prov dir n = (true, files) ∧
    (validateAndFixAux env files spec prov dir n).synthCalls = 0 := by
  constructor <;> simp [validateAndFix, validateAndFixAux, h]

/-- C9 witness: the theorem applied to the concrete valid artifact set. -/
theorem c9_repair_idempotent_witness :
    validateAndFix defaultOsEnv tinyValidGcp nodeDemoSpec ["gcp"] "out" 3 =
      (true, tinyValidGcp) ∧
    (validateAndFixAux defaultOsEnv tinyValidGcp nodeDemoSpec ["gcp"] "out" 3).synthCalls = 0 :=
  c9_repair_idempotent defaultOsEnv tinyValidGcp nodeDemoSpec ["gcp"] "out" 3
    (by decide)

/-! ## C10 — frame property of the repair loop -/

theorem listContainsMem {l : List String} {a : String}
    (h : l.contains a = true) : a ∈ l := by
  induction l with
  | nil => simp [List.contains] at h
  | cons x xs ih =>
    rw [List.contains_cons] at h
    rcases Bool.or_eq_true_iff.mp h with hx | hxs
    · simp only [beq_iff_eq] at hx
      exact hx ▸ List.mem_cons_self x xs
    · exact List.mem_cons_of_mem x (ih hxs)

theorem afLookup_afInsert (fs : ArtifactSet) (k' v k : String) :
    afLookup (afInsert fs k' v) k =
      if k' == k then some v else afLookup fs k := by
  induction fs with
  | nil => simp [afInsert, afLookup]
  | cons hd tl ih =>
    obtain ⟨a, b⟩ := hd
    by_cases ha : a = k'
    · subst ha
      simp only [afInsert, beq_self_eq_true, if_true]
      by_cases hk : a = k
      · subst hk
        simp [afLookup]
      · simp [afLookup, hk]
    · simp only [afInsert, beq_iff_eq, ha, if_false]
      by_cases hk : a = k
      · subst hk
        have hne : ¬k' = a := fun h => ha h.symm
        simp [afLookup, hne]
      · simp [afLookup, hk, ih]

theorem afMem_afInsert_of (fs : ArtifactSet) (k' v k : String)
    (h : afMem fs k = true) : afMem (afInsert fs k' v) k = true := by
  simp only [afMem, afLookup_afInsert]
  by_cases hk : (k' == k) = true
  · simp [hk]
  · simp only [hk, Bool.false_eq_true, if_false]
    exact h

theorem afInsert_key_mem {fs : ArtifactSet} {k' v : String} :
    ∀ p ∈ afInsert fs k' v, p.1 = k' ∨ p ∈ fs := by
  induction fs with
  | nil =>
    intro p hp
    simp only [afInsert, List.mem_singleton] at hp
    exact Or.inl (by rw [hp])
  | cons hd tl ih =>
    obtain ⟨a, b⟩ := hd
    intro p hp
    by_cases ha : a = k'
    · subst ha
      simp only [afInsert, beq_self_eq_true, if_true, List.mem_cons] at hp
      rcases hp with rfl | hp
      · exact Or.inl rfl
      · exact Or.inr (List.mem_cons_of_mem _ hp)
    · simp only [afInsert, beq_iff_eq, ha, if_false, List.mem_cons] at hp
      rcases hp with rfl | hp
      · exact Or.inr (List.mem_cons_self _ _)
      · rcases ih p hp with hk | hmem
        · exact Or.inl hk
        · exact Or.inr (List.mem_cons_of_mem _ hmem)

theorem afLookup_afUpdate (g : ArtifactSet) : ∀ (fs : ArtifactSet) (k : String),
    (∀ p ∈ g, p.1 ≠ k) → afLookup (afUpdate fs g) k = afLookup fs k := by
  induction g with
  | nil => intro fs k _; rfl
  | cons hd tl ih =>
    intro fs k h
    obtain ⟨a, b⟩ := hd
    have ha : a ≠ k := h (a, b) (List.mem_cons_self _ _)
    have : afUpdate fs ((a, b) :: tl) = afUpdate (afInsert fs a b) tl := rfl
    rw [this, ih (afInsert fs a b) k fun p hp => h p (List.mem_cons_of_mem _ hp),
      afLookup_afInsert]
    simp [ha]

theorem afMem_afUpdate (g : ArtifactSet) : ∀ (fs : ArtifactSet) (k : String),
    afMem fs k = true → afMem (afUpdate fs g) k = true := by
  induction g with
  | nil => intro fs k h; exact h
  | cons hd tl ih =>
    intro fs k h
    obtain ⟨a, b⟩ := hd
    exact ih (afInsert fs a b) k (afMem_afInsert_of fs a b k h)

theorem condInsertStep (Q : String → Prop) (g : ArtifactSet × Nat)
    (key v : String) (c : Bool)
    (hg : ∀ p ∈ g.1, Q p.1) (hc : c = true → Q key) :
    ∀ p ∈ (if c then (afInsert g.1 key v, g.2 + 1) else g).1, Q p.1 := by
  intro p hp
  by_cases h : c = true
  · rw [if_pos h] at hp
    rcases afInsert_key_mem p hp with hk | hpg
    · exact hk ▸ hc h
    · exact hg p hpg
  · rw [if_neg h] at hp
    exact hg p hp

theorem tfvarsFoldStep (env : OsEnv) (spec : ServiceSpec)
    (missing : List String) (Q : String → Prop)
    (hQ : ∀ s, missing.contains s = true → Q s) :
    ∀ (ps : List String) (g : ArtifactSet × Nat),
    (∀ p ∈ g.1, Q p.1) →
    ∀ p ∈ (ps.foldl
      (fun g pr =>
        if missing.contains (tfvarsFile pr) then
          (afInsert g.1 (tfvarsFile pr) (genProviderTfvars env spec pr), g.2 + 1)
        else g) g).1, Q p.1 := by
  intro ps
  induction ps with
  | nil => intro g hg p hp; exact hg p hp
  | cons pr prs ih =>
    intro g hg p hp
    rw [List.foldl_cons] at hp
    exact ih _ (condInsertStep Q g (tfvarsFile pr) (genProviderTfvars env spec pr)
      (missing.contains (tfvarsFile pr)) hg fun hc => hQ _ hc) p hp

set_option maxHeartbeats 1600000 in
theorem gmf_keys (env : OsEnv) (ex : ArtifactSet) (missing : List String)
    (spec : ServiceSpec) (prov : List String) :
    ∀ p ∈ (generateMissingFilesC env ex missing spec prov).1,
      p.1 ∈ missing ∨ afMem ex p.1 = false := by
  intro p hp
  set Q : String → Prop := fun s => s ∈ missing ∨ afMem ex s = false with hQdef
  show Q p.1
  set g0 : ArtifactSet × Nat := ([], 0) with hg0
  have h0 : ∀ q ∈ g0.1, Q q.1 := by intro q hq; simp [hg0] at hq
  set g1 := if missing.contains "main.tf" then
    (afInsert g0.1 "main.tf" (genMainTf spec prov), g0.2 + 1) else g0 with hg1
  have h1 : ∀ q ∈ g1.1, Q q.1 :=
    condInsertStep Q g0 "main.tf" (genMainTf spec prov) _ h0
      fun hc => Or.inl (listContainsMem hc)
  set g2 := if missing.contains "variables.tf" then
    (afInsert g1.1 "variables.tf" (genVariablesTf spec prov), g1.2 + 1) else g1 with hg2
  have h2 : ∀ q ∈ g2.1, Q q.1 :=
    condInsertStep Q g1 "variables.tf" (genVariablesTf spec prov) _ h1
      fun hc => Or.inl (listContainsMem hc)
  set g3 := if missing.contains "outputs.tf" then
    (afInsert g2.1 "outputs.tf" (genOutputsTf spec prov), g2.2 + 1) else g2 with hg3
  have h3 : ∀ q ∈ g3.1, Q q.1 :=
    condInsertStep Q g2 "outputs.tf" (genOutputsTf spec prov) _ h2
      fun hc => Or.inl (listContainsMem hc)
  set g4 := prov.foldl
    (fun g pr =>
      if missing.contains (tfvarsFile pr) then
        (afInsert g.1 (tfvarsFile pr) (genProviderTfvars env spec pr), g.2 + 1)
      else g) g3 with hg4
  have h4 : ∀ q ∈ g4.1, Q q.1 :=
    tfvarsFoldStep env spec missing Q (fun s hc => Or.inl (listContainsMem hc))
      prov g3 h3
  set g5 := if missing.contains "Dockerfile" then
    (afInsert g4.1 "Dockerfile" (genDockerfile spec), g4.2 + 1) else g4 with hg5
  have h5 : ∀ q ∈ g5.1, Q q.1 :=
    condInsertStep Q g4 "Dockerfile" (genDockerfile spec) _ h4
      fun hc => Or.inl (listContainsMem hc)
  have hruntime : ∀ (exKey : String) (g : ArtifactSet × Nat),
      (!afMem ex exKey && !afMem g.1 exKey) = true → Q exKey := by
    intro exKey g hc
    rcases Bool.and_eq_true_iff.mp hc with ⟨hex, _⟩
    exact Or.inr (by simpa using hex)
  unfold generateMissingFilesC at hp
  rcases hrk : runtimeKindOf (specRuntimeLower spec) with _ | _ | _ <;>
    rw [hrk] at hp <;> dsimp only at hp
  · -- node: package.json then index.js
    set g6 := if !afMem ex "package.json" && !afMem g5.1 "package.json" then
      (afInsert g5.1 "package.json" (genPackageJson spec), g5.2 + 1) else g5 with hg6
    have h6 : ∀ q ∈ g6.1, Q q.1 :=
      condInsertStep Q g5 "package.json" (genPackageJson spec) _ h5
        (hruntime "package.json" g5)
    have h7 : ∀ q ∈ (if !afMem ex "index.js" && !afMem g6.1 "index.js" then
        (afInsert g6.1 "index.js" (genNodejsApp spec), g6.2 + 1) else g6).1, Q q.1 :=
      condInsertStep Q g6 "index.js" (genNodejsApp spec) _ h6
        (hruntime "index.js" g6)
    exact h7 p hp
  · -- python: requirements.txt then main.py
    set g6 := if !afMem ex "requirements.txt" && !afMem g5.1 "requirements.txt" then
      (afInsert g5.1 "requirements.txt" (genRequirementsTxt spec), g5.2 + 1) else g5 with hg6
    have h6 : ∀ q ∈ g6.1, Q q.1 :=
      condInsertStep Q g5 "requirements.txt" (genRequirementsTxt spec) _ h5
        (hruntime "requirements.txt" g5)
    have h7 : ∀ q ∈ (if !afMem ex "main.py" && !afMem g6.1 "main.py" then
        (afInsert g6.1 "main.py" (genPythonApp spec), g6.2 + 1) else g6).1, Q q.1 :=
      condInsertStep Q g6 "main.py" (genPythonApp spec) _ h6
        (hruntime "main.py" g6)
    exact h7 p hp
  · -- other: no runtime files
    exact h5 p hp

theorem fci_lookup (spec : ServiceSpec) (prov : List String) (k : String) :
    ∀ (issues : List String) (acc : ArtifactSet × Nat),
    (∀ i ∈ issues, strContains i k = false) →
    afLookup (issues.foldl
      (fun fs issue =>
        if strContains issue "main.tf" && afMem fs.1 "main.tf" then
          (afInsert fs.1 "main.tf" (genMainTf spec prov), fs.2 + 1)
        else if strContains issue "variables.tf" && afMem fs.1 "variables.tf" then
          (afInsert fs.1 "variables.tf" (genVariablesTf spec prov), fs.2 + 1)
        else if strContains issue "outputs.tf" && afMem fs.1 "outputs.tf" then
          (afInsert fs.1 "outputs.tf" (genOutputsTf spec prov), fs.2 + 1)
        else fs) acc).1 k = afLookup acc.1 k := by
  intro issues
  induction issues with
  | nil => intro acc _; rfl
  | cons i is ih =>
    intro acc h
    rw [List.foldl_cons, ih _ fun j hj => h j (List.mem_cons_of_mem _ hj)]
    have hik : strContains i k = false := h i (List.mem_cons_self _ _)
    have hne : ∀ key : String, strContains i key = true → ¬(key == k) = true := by
      intro key hks hkk
      rw [beq_iff_eq] at hkk
      rw [hkk, hik] at hks
      exact Bool.noConfusion hks
    by_cases c1 : (strContains i "main.tf" && afMem acc.1 "main.tf") = true
    · rw [if_pos c1]
      dsimp only
      rw [afLookup_afInsert]
      rw [if_neg (hne "main.tf" (Bool.and_eq_true_iff.mp c1).1)]
    · rw [if_neg c1]
      by_cases c2 : (strContains i "variables.tf" && afMem acc.1 "variables.tf") = true
      · rw [if_pos c2]
        dsimp only
        rw [afLookup_afInsert]
        rw [if_neg (hne "variables.tf" (Bool.and_eq_true_iff.mp c2).1)]
      · rw [if_neg c2]
        by_cases c3 : (strContains i "outputs.tf" && afMem acc.1 "outputs.tf") = true
        · rw [if_pos c3]
          dsimp only
          rw [afLookup_afInsert]
          rw [if_neg (hne "outputs.tf" (Bool.and_eq_true_iff.mp c3).1)]
        · rw [if_neg c3]

theorem fci_mem (spec : ServiceSpec) (prov : List String) (k : String) :
    ∀ (issues : List String) (acc : ArtifactSet × Nat),
    afMem acc.1 k = true →
    afMem (issues.foldl
      (fun fs issue =>
        if strContains issue "main.tf" && afMem fs.1 "main.tf" then
          (afInsert fs.1 "main.tf" (genMainTf spec prov), fs.2 + 1)
        else if strContains issue "variables.tf" && afMem fs.1 "variables.tf" then
          (afInsert fs.1 "variables.tf" (genVariablesTf spec prov), fs.2 + 1)
        else if strContains issue "outputs.tf" && afMem fs.1 "outputs.tf" then
          (afInsert fs.1 "outputs.tf" (genOutputsTf spec prov), fs.2 + 1)
        else fs) acc).1 k = true := by
  intro issues
  induction issues with
  | nil => intro acc h; exact h
  | cons i is ih =>
    intro acc h
    rw [List.foldl_cons]
    apply ih
    by_cases c1 : (strContains i "main.tf" && afMem acc.1 "main.tf") = true
    · rw [if_pos c1]
      exact afMem_afInsert_of acc.1 _ _ k h
    · rw [if_neg c1]
      by_cases c2 : (strContains i "variables.tf" && afMem acc.1 "variables.tf") = true
      · rw [if_pos c2]
        exact afMem_afInsert_of acc.1 _ _ k h
      · rw [if_neg c2]
        by_cases c3 : (strContains i "outputs.tf" && afMem acc.1 "outputs.tf") = true
        · rw [if_pos c3]
          exact afMem_afInsert_of acc.1 _ _ k h
        · rw [if_neg c3]
          exact h

theorem fixLoopAux_keys (env : OsEnv) (spec : ServiceSpec) (prov : List String)
    (k : String) : ∀ (fuel : Nat) (fs : ArtifactSet) (vr : VReport),
    afMem fs k = true →
    afMem (fixLoopAux env spec prov fuel fs vr).files k = true := by
  intro fuel
  induction fuel with
  | zero => intro fs vr h; exact h
  | succ n ih =>
    intro fs vr h
    rw [fixLoopAux]
    dsimp only
    have h1 : afMem (afUpdate fs
        (generateMissingFilesC env fs vr.missing_files spec prov).1) k = true :=
      afMem_afUpdate _ fs k h
    have h2 : afMem (fixContentIssuesC
        (afUpdate fs (generateMissingFilesC env fs vr.missing_files spec prov).1)
        vr.content_issues spec prov).1 k = true :=
      fci_mem spec prov k vr.content_issues
        (afUpdate fs (generateMissingFilesC env fs vr.missing_files spec prov).1, 0) h1
    by_cases hv : (validateTerraformFiles (fixContentIssuesC
        (afUpdate fs (generateMissingFilesC env fs vr.missing_files spec prov).1)
        vr.content_issues spec prov).1 prov).valid = true
    · rw [if_pos hv]
      exact h2
    · rw [if_neg hv]
      exact ih _ _ h2

theorem fixLoopAux_frame (env : OsEnv) (spec : ServiceSpec) (prov : List String)
    (k v : String) : ∀ (fuel : Nat) (fs : ArtifactSet) (vr : VReport),
    afLookup fs k = some v →
    k ∉ vr.missing_files →
    (∀ i ∈ vr.content_issues, strContains i k = false) →
    (∀ rep ∈ (fixLoopAux env spec prov fuel fs vr).reports,
      k ∉ rep.missing_files ∧ ∀ i ∈ rep.content_issues, strContains i k = false) →
    afLookup (fixLoopAux env spec prov fuel fs vr).files k = some v := by
  intro fuel
  induction fuel with
  | zero => intro fs vr hl _ _ _; exact hl
  | succ n ih =>
    intro fs vr hl hm hc hreps
    have hmem : afMem fs k = true := by simp [afMem, hl]
    have hkeys : ∀ p ∈ (generateMissingFilesC env fs vr.missing_files spec prov).1,
        p.1 ≠ k := by
      intro p hp
      rcases gmf_keys env fs vr.missing_files spec prov p hp with hmiss | hno
      · exact fun heq => hm (heq ▸ hmiss)
      · intro heq
        rw [heq, hmem] at hno
        exact Bool.noConfusion hno
    have hupd : afLookup (afUpdate fs
        (generateMissingFilesC env fs vr.missing_files spec prov).1) k = some v := by
      rw [afLookup_afUpdate _ fs k hkeys]
      exact hl
    have hfci : afLookup (fixContentIssuesC
        (afUpdate fs (generateMissingFilesC env fs vr.missing_files spec prov).1)
        vr.content_issues spec prov).1 k = some v := by
      have hstep := fci_lookup spec prov k vr.content_issues
        (afUpdate fs (generateMissingFilesC env fs vr.missing_files spec prov).1, 0) hc
      exact hstep.trans hupd
    rw [fixLoopAux] at hreps ⊢
    dsimp only at hreps ⊢
    by_cases hv : (validateTerraformFiles (fixContentIssuesC
        (afUpdate fs (generateMissingFilesC env fs vr.missing_files spec prov).1)
        vr.content_issues spec prov).1 prov).valid = true
    · rw [if_pos hv]
      exact hfci
    · rw [if_neg hv] at hreps ⊢
      dsimp only at hreps ⊢
      have hvr2 := hreps _ (List.mem_cons_self _ _)
      exact ih _ _ hfci hvr2.1 hvr2.2
        fun rep hrep => hreps rep (List.mem_cons_of_mem _ hrep)

/-- C10: the artifact mapping `validate_and_fix` returns contains every key
of the input mapping — repair adds or wholesale-replaces entries, never
deletes — and every input entry whose filename is neither listed among the
missing files nor named inside a content-issue string of any validation
report produced during the run comes back with its content unchanged. -/
theorem c10_repair_frame (env : OsEnv) (files : ArtifactSet)
    (spec : ServiceSpec) (prov : List String) (dir : String) (n : Nat) :
    (∀ k, afMem files k = true →
      afMem (validateAndFixAux env files spec prov dir n).files k = true) ∧
    (∀ k v, afLookup files k = some v →
      (∀ rep ∈ (validateAndFixAux env files spec prov dir n).reports,
        k ∉ rep.missing_files ∧ ∀ i ∈ rep.content_issues, strContains i k = false) →
      afLookup (validateAndFixAux env files spec prov dir n).files k = some v) := by
  by_cases h0 : (validateTerraformFiles files prov).valid = true
  · constructor
    · intro k hk
      simp only [validateAndFixAux, h0, if_true]
      exact hk
    · intro k v hl _
      simp only [validateAndFixAux, h0, if_true]
      exact hl
  · have hfalse : (validateTerraformFiles files prov).valid = false :=
      Bool.not_eq_true _ ▸ h0
    constructor
    · intro k hk
      simp only [validateAndFixAux, hfalse, Bool.false_eq_true, if_false]
      exact fixLoopAux_keys env spec prov k n files _ hk
    · intro k v hl hreps
      simp only [validateAndFixAux, hfalse, Bool.false_eq_true, if_false] at hreps ⊢
      have h00 := hreps _ (List.mem_cons_self _ _)
      exact fixLoopAux_frame env spec prov k v n files _ hl h00.1 h00.2
        fun rep hrep => hreps rep (List.mem_cons_of_mem _ hrep)

/-- C10 witness: the theorem applied to the concrete valid artifact set and
the key `main.tf`, whose content survives the run unchanged. -/
theorem c10_repair_frame_witness :
    afMem (validateAndFixAux defaultOsEnv tinyValidGcp nodeDemoSpec
      ["gcp"] "out" 3).files "main.tf" = true ∧
    afLookup (validateAndFixAux defaultOsEnv tinyValidGcp nodeDemoSpec
      ["gcp"] "out" 3).files "main.tf" =
      some "terraform \x7b hashicorp/google module" :=
  ⟨(c10_repair_frame defaultOsEnv tinyValidGcp nodeDemoSpec ["gcp"] "out" 3).1
      "main.tf" (by decide),
   (c10_repair_frame defaultOsEnv tinyValidGcp nodeDemoSpec ["gcp"] "out" 3).2
      "main.tf" "terraform \x7b hashicorp/google module" (by decide) (by decide)⟩

/-! ## C1 — round-trip convergence of the repair loop -/

set_option maxRecDepth 1000000 in
/-- C1 counterexample: for the Specification Document parsed from
`"Runtime: Go\n"` and the supported target kind `gcp`, `validate_and_fix` on
a fresh empty Artifact Set does not converge: no synthesis generator
produces the Go runtime files (`go.mod` / `main.go`) the validator's
runtime-file check accepts, the content issue "No runtime-specific
application files found" survives every repair iteration, and the loop
exhausts the configured default budget of 3 retries and returns
`success = false`. -/
theorem c1_go_runtime_counterexample :
    (validateAndFix defaultOsEnv [] goDemoSpec ["gcp"] "out" 3).1 = false := by
  decide

set_option maxRecDepth 1000000 in
set_option maxHeartbeats 16000000 in
/-- C1 amended: round-trip convergence holds for every Specification
Document whose runtime — after the validator's own defaulting to Node.js and
lowercasing — mentions node, javascript or python (every runtime whose
`runtimeKindOf` classification is not `other`): for each supported
target-kind combination, `validate_and_fix` on a fresh empty Artifact Set
reaches `valid = true` and returns success within any retry budget of at
least one attempt, because the deterministic synthesis generators satisfy
the validator's required-file and content checks in a single pass.  For any
other runtime (e.g. Go) convergence fails, as the counterexample shows. -/
theorem c1_roundtrip_amended (env : OsEnv) (spec : ServiceSpec) (dir : String)
    (providers : List String)
    (hprov : providers = ["gcp"] ∨ providers = ["aws"] ∨
      providers = ["gcp", "aws"])
    (hrt : runtimeKindOf (specRuntimeLower spec) ≠ .other)
    (n : Nat) (hn : 1 ≤ n) :
    (validateAndFix env [] spec providers dir n).1 = true := by
  obtain ⟨m, rfl⟩ : ∃ m, n = m + 1 := ⟨n - 1, by omega⟩
  rcases hprov with rfl | rfl | rfl <;>
    rcases hrk : runtimeKindOf (specRuntimeLower spec) with _ | _ | _ <;>
      first
        | exact absurd hrk hrt
        | (simp only [validateAndFix, validateAndFixAux, fixLoopAux,
             generateMissingFilesC, hrk]
           rfl)

set_option maxRecDepth 1000000 in
/-- C1 witness: the amended theorem applied to the parsed Node.js demo
document with target kind `gcp` and the default budget of 3 retries. -/
theorem c1_roundtrip_amended_witness :
    (validateAndFix defaultOsEnv [] nodeDemoSpec ["gcp"] "out" 3).1 = true :=
  c1_roundtrip_amended defaultOsEnv nodeDemoSpec "out" ["gcp"] (Or.inl rfl)
    (by decide) 3 (by decide)
